import Mathlib

/-!
Verification of the raysurfer code-cache CLI (Python sources under
`src/raysurfer_cli/`) against its natural-language specification.

The development shallowly embeds the three layers of the program:
* the schema layer (`types.py`): pydantic request/response models, embedded as
  Lean structures with explicit JSON parse and dump functions;
* the transport layer (`client.py`): client construction, header building and
  the five POST operations, embedded as pure functions over an abstract server;
* the command layer (`cli.py`): local-input validation and display logic.

JSON values are modelled by `JVal`; Python distinguishes `int` and `float`
at runtime, so the model keeps separate numeric constructors (`float` as an
exact rational, which is faithful for the structural properties proved here).
A pydantic `ValidationError` is modelled as `Except.error` with a message;
an HTTP exchange is a function from URL and body to an `HttpResponse`.
-/

/-- A JSON-like value as produced by `resp.json()` in Python: `null`, booleans,
integers, floats (modelled exactly as rationals), strings, arrays, objects. -/
inductive JVal where
  | null
  | bool (b : Bool)
  | int (n : Int)
  | float (q : Rat)
  | str (s : String)
  | list (xs : List JVal)
  | obj (fields : List (String × JVal))

/-- First value stored under key `k` in an association list, as Python dict
lookup on the decoded JSON object (JSON objects with unique keys). -/
def getField {α : Type} : List (String × α) → String → Option α
  | [], _ => none
  | (k2, v) :: rest, k => if k2 = k then some v else getField rest k

/-- Error-propagating bind on `Except String`, used to write the pydantic
field-by-field validators. -/
def ebind {α β : Type} (x : Except String α) (f : α → Except String β) :
    Except String β :=
  match x with
  | .ok a => f a
  | .error e => .error e

/-- pydantic `str` field validation of a JSON value. -/
def decodeStr : JVal → Except String String
  | .str s => .ok s
  | _ => .error "Input should be a valid string"

/-- pydantic `bool` field validation of a JSON value. -/
def decodeBool : JVal → Except String Bool
  | .bool b => .ok b
  | _ => .error "Input should be a valid boolean"

/-- pydantic `int` field validation: accepts an int, laxly coerces an
integral float, rejects everything else. -/
def decodeInt : JVal → Except String Int
  | .int n => .ok n
  | .float q => if q.den = 1 then .ok q.num else .error "Input should be a valid integer"
  | _ => .error "Input should be a valid integer"

/-- pydantic `float` field validation: accepts a float, laxly coerces an int. -/
def decodeFloat : JVal → Except String Rat
  | .float q => .ok q
  | .int n => .ok (n : Rat)
  | _ => .error "Input should be a valid number"

/-- Validate every element of a JSON array with `dec`, failing on the first
element that does not conform. -/
def decodeListWith {α : Type} (dec : JVal → Except String α) :
    List JVal → Except String (List α)
  | [] => .ok []
  | v :: rest =>
    match dec v, decodeListWith dec rest with
    | .ok a, .ok xs => .ok (a :: xs)
    | .error e, _ => .error e
    | _, .error e => .error e

/-- pydantic `List[...]` field validation of a JSON value. -/
def decodeList {α : Type} (dec : JVal → Except String α) : JVal → Except String (List α)
  | .list xs => decodeListWith dec xs
  | _ => .error "Input should be a valid list"

/-- Read field `k` of JSON object `o`: a missing field takes the declared
default `dflt`, a present field is validated with `dec`
(pydantic optional-field semantics). -/
def optField {α : Type} (o : List (String × JVal)) (k : String)
    (dec : JVal → Except String α) (dflt : α) : Except String α :=
  match getField o k with
  | none => .ok dflt
  | some v => dec v

-- ── Schema layer: request models (types.py lines 13-61) ─────────────────────

/-- `SearchRequest` (types.py lines 13-19): body for POST /api/retrieve/search. -/
structure SearchRequest where
  task : String
  top_k : Int
  min_verdict_score : Rat
  prefer_complete : Bool

/-- `model_dump` of a `SearchRequest`. -/
def SearchRequest.dump (r : SearchRequest) : JVal :=
  .obj [("task", .str r.task), ("top_k", .int r.top_k),
        ("min_verdict_score", .float r.min_verdict_score),
        ("prefer_complete", .bool r.prefer_complete)]

/-- `UploadFile` (types.py lines 22-26): one file entry for the upload request. -/
structure UploadFile where
  path : String
  content : String

/-- `model_dump` of an `UploadFile`. -/
def UploadFile.dump (f : UploadFile) : JVal :=
  .obj [("path", .str f.path), ("content", .str f.content)]

/-- `UploadRequest` (types.py lines 29-35): body for
POST /api/store/execution-result; `file_written` is required (no default),
`succeeded` and `auto_vote` default to `True`. -/
structure UploadRequest where
  task : String
  file_written : UploadFile
  succeeded : Bool
  auto_vote : Bool

/-- `model_dump` of an `UploadRequest`. -/
def UploadRequest.dump (r : UploadRequest) : JVal :=
  .obj [("task", .str r.task), ("file_written", r.file_written.dump),
        ("succeeded", .bool r.succeeded), ("auto_vote", .bool r.auto_vote)]

/-- `VoteRequest` (types.py lines 38-45): body for POST /api/store/cache-usage. -/
structure VoteRequest where
  code_block_id : String
  succeeded : Bool
  task : String
  code_block_name : String
  code_block_description : String

/-- `model_dump` of a `VoteRequest`. -/
def VoteRequest.dump (r : VoteRequest) : JVal :=
  .obj [("code_block_id", .str r.code_block_id), ("succeeded", .bool r.succeeded),
        ("task", .str r.task), ("code_block_name", .str r.code_block_name),
        ("code_block_description", .str r.code_block_description)]

/-- `PatternsRequest` (types.py lines 48-54): body for
POST /api/retrieve/task-patterns. -/
structure PatternsRequest where
  task : String
  code_block_id : String
  min_thumbs_up : Int
  top_k : Int

/-- `model_dump` of a `PatternsRequest`. -/
def PatternsRequest.dump (r : PatternsRequest) : JVal :=
  .obj [("task", .str r.task), ("code_block_id", .str r.code_block_id),
        ("min_thumbs_up", .int r.min_thumbs_up), ("top_k", .int r.top_k)]

/-- `FewShotRequest` (types.py lines 57-61): body for
POST /api/retrieve/few-shot-examples. -/
structure FewShotRequest where
  task : String
  k : Int

/-- `model_dump` of a `FewShotRequest`. -/
def FewShotRequest.dump (r : FewShotRequest) : JVal :=
  .obj [("task", .str r.task), ("k", .int r.k)]

-- ── pydantic keyword construction of UploadRequest (for cli.py upload) ──────

/-- A Python value passed as a keyword argument to `UploadRequest(...)` in
`cli.py`: the upload command passes strings, booleans and a list of
`UploadFile` objects. -/
inductive PyArg where
  | str (s : String)
  | bool (b : Bool)
  | file (f : UploadFile)
  | files (fs : List UploadFile)

/-- pydantic validation of a required `str` field from keyword arguments. -/
def pyReqStr (kwargs : List (String × PyArg)) (k : String) : Except String String :=
  match getField kwargs k with
  | none => .error (k ++ ": Field required")
  | some (.str s) => .ok s
  | some _ => .error (k ++ ": Input should be a valid string")

/-- pydantic validation of a required `UploadFile` field from keyword
arguments. -/
def pyReqFile (kwargs : List (String × PyArg)) (k : String) : Except String UploadFile :=
  match getField kwargs k with
  | none => .error (k ++ ": Field required")
  | some (.file f) => .ok f
  | some _ => .error (k ++ ": Input should be a valid UploadFile")

/-- pydantic validation of an optional `bool` field with default `dflt`
from keyword arguments. -/
def pyOptBool (kwargs : List (String × PyArg)) (k : String) (dflt : Bool) :
    Except String Bool :=
  match getField kwargs k with
  | none => .ok dflt
  | some (.bool b) => .ok b
  | some _ => .error (k ++ ": Input should be a valid boolean")

/-- pydantic `UploadRequest(**kwargs)` (types.py lines 29-35): each declared
field is validated from the keyword arguments; keywords that match no
declared field are ignored (the models set no `extra` config, and pydantic's
default is `extra="ignore"`); a missing required field is a validation error. -/
def UploadRequest.validateInit (kwargs : List (String × PyArg)) :
    Except String UploadRequest :=
  ebind (pyReqStr kwargs "task") fun task =>
  ebind (pyReqFile kwargs "file_written") fun fw =>
  ebind (pyOptBool kwargs "succeeded" true) fun s =>
  ebind (pyOptBool kwargs "auto_vote" true) fun a =>
  .ok ⟨task, fw, s, a⟩

/-- The request construction performed by the upload command
(cli.py lines 166-171): it calls `UploadRequest` with keywords `task`,
`files_written` (the whole list of local files read), `succeeded` and
`auto_vote`. -/
def uploadBuildRequest (task : String) (files_written : List UploadFile)
    (succeeded : Bool) (noAutoVote : Bool) : Except String UploadRequest :=
  UploadRequest.validateInit
    [("task", .str task), ("files_written", .files files_written),
     ("succeeded", .bool succeeded), ("auto_vote", .bool (!noAutoVote))]

-- ── Schema layer: response models (types.py lines 67-149) ───────────────────

/-- `CodeBlock` (types.py lines 67-77): cached snippet metadata; every field
optional with empty-string / empty-list defaults. -/
structure CodeBlock where
  id : String
  name : String
  description : String
  source : String
  entrypoint : String
  language : String
  dependencies : List String
  tags : List String

/-- `CodeBlock.model_validate` of a JSON value. -/
def CodeBlock.parse (j : JVal) : Except String CodeBlock :=
  match j with
  | .obj o =>
    ebind (optField o "id" decodeStr "") fun i =>
    ebind (optField o "name" decodeStr "") fun n =>
    ebind (optField o "description" decodeStr "") fun d =>
    ebind (optField o "source" decodeStr "") fun src =>
    ebind (optField o "entrypoint" decodeStr "") fun ep =>
    ebind (optField o "language" decodeStr "") fun lang =>
    ebind (optField o "dependencies" (decodeList decodeStr) []) fun deps =>
    ebind (optField o "tags" (decodeList decodeStr) []) fun tags =>
    .ok ⟨i, n, d, src, ep, lang, deps, tags⟩
  | _ => .error "CodeBlock: Input should be an object"

/-- `model_dump` of a `CodeBlock`. -/
def CodeBlock.dump (cb : CodeBlock) : JVal :=
  .obj [("id", .str cb.id), ("name", .str cb.name),
        ("description", .str cb.description), ("source", .str cb.source),
        ("entrypoint", .str cb.entrypoint), ("language", .str cb.language),
        ("dependencies", .list (cb.dependencies.map .str)),
        ("tags", .list (cb.tags.map .str))]

/-- pydantic `Optional[CodeBlock]` field validation: `null` is `None`, an
object is validated as a `CodeBlock`, anything else is a validation error. -/
def decodeOptCB : JVal → Except String (Option CodeBlock)
  | .null => .ok none
  | j =>
    match CodeBlock.parse j with
    | .ok cb => .ok (some cb)
    | .error e => .error e

/-- `model_dump` of an `Optional[CodeBlock]` field. -/
def dumpOptCB : Option CodeBlock → JVal
  | none => .null
  | some cb => cb.dump

/-- `SearchMatch` (types.py lines 80-92): a single search hit, with fallback
filename / language / entrypoint / dependencies fields at match level. -/
structure SearchMatch where
  code_block : Option CodeBlock
  combined_score : Rat
  vector_score : Rat
  verdict_score : Rat
  thumbs_up : Int
  thumbs_down : Int
  filename : String
  language : String
  entrypoint : String
  dependencies : List String

/-- `SearchMatch.model_validate` of a JSON value. -/
def SearchMatch.parse (j : JVal) : Except String SearchMatch :=
  match j with
  | .obj o =>
    ebind (optField o "code_block" decodeOptCB none) fun cb =>
    ebind (optField o "combined_score" decodeFloat 0) fun cs =>
    ebind (optField o "vector_score" decodeFloat 0) fun vs =>
    ebind (optField o "verdict_score" decodeFloat 0) fun ds =>
    ebind (optField o "thumbs_up" decodeInt 0) fun up =>
    ebind (optField o "thumbs_down" decodeInt 0) fun dn =>
    ebind (optField o "filename" decodeStr "") fun fn =>
    ebind (optField o "language" decodeStr "") fun lang =>
    ebind (optField o "entrypoint" decodeStr "") fun ep =>
    ebind (optField o "dependencies" (decodeList decodeStr) []) fun deps =>
    .ok ⟨cb, cs, vs, ds, up, dn, fn, lang, ep, deps⟩
  | _ => .error "SearchMatch: Input should be an object"

/-- `model_dump` of a `SearchMatch`. -/
def SearchMatch.dump (m : SearchMatch) : JVal :=
  .obj [("code_block", dumpOptCB m.code_block),
        ("combined_score", .float m.combined_score),
        ("vector_score", .float m.vector_score),
        ("verdict_score", .float m.verdict_score),
        ("thumbs_up", .int m.thumbs_up), ("thumbs_down", .int m.thumbs_down),
        ("filename", .str m.filename), ("language", .str m.language),
        ("entrypoint", .str m.entrypoint),
        ("dependencies", .list (m.dependencies.map .str))]

/-- `SearchResponse` (types.py lines 95-101). -/
structure SearchResponse where
  «matches» : List SearchMatch
  total_found : Int
  cache_hit : Bool
  search_namespaces : List String

/-- `SearchResponse.model_validate` of a JSON value. -/
def SearchResponse.parse (j : JVal) : Except String SearchResponse :=
  match j with
  | .obj o =>
    ebind (optField o "matches" (decodeList SearchMatch.parse) []) fun ms =>
    ebind (optField o "total_found" decodeInt 0) fun tf =>
    ebind (optField o "cache_hit" decodeBool false) fun ch =>
    ebind (optField o "search_namespaces" (decodeList decodeStr) []) fun ns =>
    .ok ⟨ms, tf, ch, ns⟩
  | _ => .error "SearchResponse: Input should be an object"

/-- `model_dump` of a `SearchResponse`. -/
def SearchResponse.dump (r : SearchResponse) : JVal :=
  .obj [("matches", .list (r.«matches».map SearchMatch.dump)),
        ("total_found", .int r.total_found), ("cache_hit", .bool r.cache_hit),
        ("search_namespaces", .list (r.search_namespaces.map .str))]

/-- `UploadResponse` (types.py lines 104-109). -/
structure UploadResponse where
  success : Bool
  code_block_ids : List String
  message : String

/-- `UploadResponse.model_validate` of a JSON value. -/
def UploadResponse.parse (j : JVal) : Except String UploadResponse :=
  match j with
  | .obj o =>
    ebind (optField o "success" decodeBool false) fun s =>
    ebind (optField o "code_block_ids" (decodeList decodeStr) []) fun ids =>
    ebind (optField o "message" decodeStr "") fun msg =>
    .ok ⟨s, ids, msg⟩
  | _ => .error "UploadResponse: Input should be an object"

/-- `model_dump` of an `UploadResponse`. -/
def UploadResponse.dump (r : UploadResponse) : JVal :=
  .obj [("success", .bool r.success),
        ("code_block_ids", .list (r.code_block_ids.map .str)),
        ("message", .str r.message)]

/-- `VoteResponse` (types.py lines 112-116). -/
structure VoteResponse where
  success : Bool
  message : String

/-- `VoteResponse.model_validate` of a JSON value. -/
def VoteResponse.parse (j : JVal) : Except String VoteResponse :=
  match j with
  | .obj o =>
    ebind (optField o "success" decodeBool false) fun s =>
    ebind (optField o "message" decodeStr "") fun msg =>
    .ok ⟨s, msg⟩
  | _ => .error "VoteResponse: Input should be an object"

/-- `model_dump` of a `VoteResponse`. -/
def VoteResponse.dump (r : VoteResponse) : JVal :=
  .obj [("success", .bool r.success), ("message", .str r.message)]

/-- `PatternEntry` (types.py lines 119-127): `model_config` allows extra
fields; the declared fields are validated exactly as below and extra keys
are tolerated. -/
structure PatternEntry where
  code_block : Option CodeBlock
  thumbs_up : Int
  thumbs_down : Int
  combined_score : Rat

/-- `PatternEntry.model_validate` of a JSON value (extra keys tolerated:
only the declared keys are consulted). -/
def PatternEntry.parse (j : JVal) : Except String PatternEntry :=
  match j with
  | .obj o =>
    ebind (optField o "code_block" decodeOptCB none) fun cb =>
    ebind (optField o "thumbs_up" decodeInt 0) fun up =>
    ebind (optField o "thumbs_down" decodeInt 0) fun dn =>
    ebind (optField o "combined_score" decodeFloat 0) fun cs =>
    .ok ⟨cb, up, dn, cs⟩
  | _ => .error "PatternEntry: Input should be an object"

/-- `model_dump` of a `PatternEntry` (declared fields). -/
def PatternEntry.dump (p : PatternEntry) : JVal :=
  .obj [("code_block", dumpOptCB p.code_block), ("thumbs_up", .int p.thumbs_up),
        ("thumbs_down", .int p.thumbs_down),
        ("combined_score", .float p.combined_score)]

/-- `PatternsResponse` (types.py lines 130-134): extra fields tolerated. -/
structure PatternsResponse where
  patterns : List PatternEntry

/-- `PatternsResponse.model_validate` of a JSON value. -/
def PatternsResponse.parse (j : JVal) : Except String PatternsResponse :=
  match j with
  | .obj o =>
    ebind (optField o "patterns" (decodeList PatternEntry.parse) []) fun ps =>
    .ok ⟨ps⟩
  | _ => .error "PatternsResponse: Input should be an object"

/-- `model_dump` of a `PatternsResponse` (declared fields). -/
def PatternsResponse.dump (r : PatternsResponse) : JVal :=
  .obj [("patterns", .list (r.patterns.map PatternEntry.dump))]

/-- `FewShotExample` (types.py lines 137-142): extra fields tolerated. -/
structure FewShotExample where
  task : String
  code : String

/-- `FewShotExample.model_validate` of a JSON value. -/
def FewShotExample.parse (j : JVal) : Except String FewShotExample :=
  match j with
  | .obj o =>
    ebind (optField o "task" decodeStr "") fun t =>
    ebind (optField o "code" decodeStr "") fun c =>
    .ok ⟨t, c⟩
  | _ => .error "FewShotExample: Input should be an object"

/-- `model_dump` of a `FewShotExample` (declared fields). -/
def FewShotExample.dump (e : FewShotExample) : JVal :=
  .obj [("task", .str e.task), ("code", .str e.code)]

/-- `FewShotResponse` (types.py lines 145-149): extra fields tolerated. -/
structure FewShotResponse where
  examples : List FewShotExample

/-- `FewShotResponse.model_validate` of a JSON value. -/
def FewShotResponse.parse (j : JVal) : Except String FewShotResponse :=
  match j with
  | .obj o =>
    ebind (optField o "examples" (decodeList FewShotExample.parse) []) fun es =>
    .ok ⟨es⟩
  | _ => .error "FewShotResponse: Input should be an object"

/-- `model_dump` of a `FewShotResponse` (declared fields). -/
def FewShotResponse.dump (r : FewShotResponse) : JVal :=
  .obj [("examples", .list (r.examples.map FewShotExample.dump))]

-- ── Transport layer (client.py) ─────────────────────────────────────────────

/-- `DEFAULT_BASE_URL` (client.py line 24). -/
def DEFAULT_BASE_URL : String := "https://api.raysurfer.com"

/-- Modelled from the spec: the package version string `__version__` exported
by the package root, which is not among the provided source files; the spec's
end-to-end scenario 4 and the repository tests fix it as "0.1.0". -/
def raysurfer_version : String := "0.1.0"

/-- `USER_AGENT` (client.py line 25). -/
def USER_AGENT : String := "raysurfer-code-caching-cli/" ++ raysurfer_version

/-- `DEFAULT_TIMEOUT` (client.py line 26). -/
def DEFAULT_TIMEOUT : Rat := 30

/-- The error message raised by `_get_api_key` (client.py lines 33-36). -/
def keyErrorMessage : String :=
  "RAYSURFER_API_KEY environment variable is not set. Set it to your Raysurfer API key before running commands."

/-- `_get_api_key` (client.py lines 29-37): read the `RAYSURFER_API_KEY`
environment variable (modelled as `env`, `none` when unset) with default "";
an empty value raises `RuntimeError`. -/
def _get_api_key (env : Option String) : Except String String :=
  if env.getD "" = "" then .error keyErrorMessage else .ok (env.getD "")

/-- `_headers` (client.py lines 40-46): the common request headers. -/
def _headers (api_key : String) : List (String × String) :=
  [("Authorization", "Bearer " ++ api_key),
   ("Content-Type", "application/json"),
   ("User-Agent", USER_AGENT)]

/-- Python `base_url.rstrip("/")`: remove every trailing '/' character. -/
def pyRstripSlashes (s : String) : String :=
  ⟨(s.data.reverse.dropWhile (· = '/')).reverse⟩

/-- Python `api_key or _get_api_key()` (client.py lines 62 and 143): a `None`
or empty explicit key falls through to the environment lookup. -/
def resolveApiKey (api_key : Option String) (env : Option String) :
    Except String String :=
  match api_key with
  | some k => if k = "" then _get_api_key env else .ok k
  | none => _get_api_key env

/-- An externally observable I/O action of client construction: reading the
environment variable, or issuing an HTTP request.  `httpx.Client(...)` /
`httpx.AsyncClient(...)` construction stores configuration and opens no
connection, so constructors emit no `httpRequest` event. -/
inductive ClientEvent where
  | envRead
  | httpRequest (url : String)

/-- The I/O events of the `api_key or _get_api_key()` expression: the
environment is read exactly when the explicit key is falsy (Python `or`
short-circuits). -/
def resolveApiKeyEvents (api_key : Option String) : List ClientEvent :=
  match api_key with
  | some k => if k = "" then [.envRead] else []
  | none => [.envRead]

/-- `RaysurferClient` (client.py lines 52-68): the configuration stored by a
constructed synchronous client. -/
structure RaysurferClient where
  api_key : String
  base_url : String
  timeout : Rat

/-- `RaysurferClient.__init__` (client.py lines 55-68) together with its
observable I/O events, in statement order: line 62 resolves the key (raising
`RuntimeError` when absent), line 63 strips trailing slashes from the base
URL, lines 64-68 store the `httpx.Client` configuration (no I/O). -/
def RaysurferClient.initWithEvents (api_key : Option String) (base_url : String)
    (timeout : Rat) (env : Option String) :
    Except String RaysurferClient × List ClientEvent :=
  match resolveApiKey api_key env with
  | .error e => (.error e, resolveApiKeyEvents api_key)
  | .ok key =>
    (.ok { api_key := key, base_url := pyRstripSlashes base_url, timeout := timeout },
     resolveApiKeyEvents api_key)

/-- The value result of `RaysurferClient.__init__`. -/
def RaysurferClient.init (api_key : Option String) (base_url : String)
    (timeout : Rat) (env : Option String) : Except String RaysurferClient :=
  (RaysurferClient.initWithEvents api_key base_url timeout env).1

/-- `AsyncRaysurferClient` (client.py lines 133-149): the configuration stored
by a constructed asynchronous client. -/
structure AsyncRaysurferClient where
  api_key : String
  base_url : String
  timeout : Rat

/-- `AsyncRaysurferClient.__init__` (client.py lines 136-149) with its
observable I/O events; the body is identical to the synchronous constructor
except that it stores an `httpx.AsyncClient` configuration (also no I/O). -/
def AsyncRaysurferClient.initWithEvents (api_key : Option String)
    (base_url : String) (timeout : Rat) (env : Option String) :
    Except String AsyncRaysurferClient × List ClientEvent :=
  match resolveApiKey api_key env with
  | .error e => (.error e, resolveApiKeyEvents api_key)
  | .ok key =>
    (.ok { api_key := key, base_url := pyRstripSlashes base_url, timeout := timeout },
     resolveApiKeyEvents api_key)

/-- The value result of `AsyncRaysurferClient.__init__`. -/
def AsyncRaysurferClient.init (api_key : Option String) (base_url : String)
    (timeout : Rat) (env : Option String) : Except String AsyncRaysurferClient :=
  (AsyncRaysurferClient.initWithEvents api_key base_url timeout env).1

/-- The URL a client operation posts to: `httpx.Client(base_url=...)` composes
the stored base URL with the request path. -/
def requestURL (c : RaysurferClient) (path : String) : String :=
  c.base_url ++ path

/-- An HTTP response as seen by the client: status code and decoded JSON body. -/
structure HttpResponse where
  status : Nat
  body : JVal

/-- The two error kinds an operation can raise: `httpx.HTTPStatusError` from
`raise_for_status` (carrying the status code and response body) and
`pydantic.ValidationError` from `model_validate` — distinct constructors,
hence distinguishable by the caller. -/
inductive ApiError where
  | transport (status : Nat) (body : JVal)
  | validation (msg : String)

/-- httpx `Response.is_success`: a 2xx status. -/
def is_success (status : Nat) : Bool :=
  decide (200 ≤ status) && decide (status < 300)

/-- httpx `Response.raise_for_status()`: raises `HTTPStatusError` for every
non-2xx response. -/
def raise_for_status (r : HttpResponse) : Except ApiError Unit :=
  if is_success r.status then .ok () else .error (.transport r.status r.body)

/-- Lift a pydantic parse result to the operation's error type. -/
def asValidation {α : Type} (x : Except String α) : Except ApiError α :=
  match x with
  | .ok a => .ok a
  | .error m => .error (.validation m)

/-- `RaysurferClient.search` (client.py lines 84-91): POST the serialized
request to /api/retrieve/search on the abstract server `serve`, raise for a
non-2xx status, then validate the body as a `SearchResponse`. -/
def RaysurferClient.search (c : RaysurferClient) (req : SearchRequest)
    (serve : String → JVal → HttpResponse) : Except ApiError SearchResponse :=
  let resp := serve (requestURL c "/api/retrieve/search") (SearchRequest.dump req)
  match raise_for_status resp with
  | .error e => .error e
  | .ok _ => asValidation (SearchResponse.parse resp.body)

/-- `RaysurferClient.upload` (client.py lines 93-100). -/
def RaysurferClient.upload (c : RaysurferClient) (req : UploadRequest)
    (serve : String → JVal → HttpResponse) : Except ApiError UploadResponse :=
  let resp := serve (requestURL c "/api/store/execution-result") (UploadRequest.dump req)
  match raise_for_status resp with
  | .error e => .error e
  | .ok _ => asValidation (UploadResponse.parse resp.body)

/-- `RaysurferClient.vote` (client.py lines 102-109). -/
def RaysurferClient.vote (c : RaysurferClient) (req : VoteRequest)
    (serve : String → JVal → HttpResponse) : Except ApiError VoteResponse :=
  let resp := serve (requestURL c "/api/store/cache-usage") (VoteRequest.dump req)
  match raise_for_status resp with
  | .error e => .error e
  | .ok _ => asValidation (VoteResponse.parse resp.body)

/-- `RaysurferClient.patterns` (client.py lines 111-118). -/
def RaysurferClient.patterns (c : RaysurferClient) (req : PatternsRequest)
    (serve : String → JVal → HttpResponse) : Except ApiError PatternsResponse :=
  let resp := serve (requestURL c "/api/retrieve/task-patterns") (PatternsRequest.dump req)
  match raise_for_status resp with
  | .error e => .error e
  | .ok _ => asValidation (PatternsResponse.parse resp.body)

/-- `RaysurferClient.few_shot_examples` (client.py lines 120-127). -/
def RaysurferClient.few_shot_examples (c : RaysurferClient) (req : FewShotRequest)
    (serve : String → JVal → HttpResponse) : Except ApiError FewShotResponse :=
  let resp := serve (requestURL c "/api/retrieve/few-shot-examples") (FewShotRequest.dump req)
  match raise_for_status resp with
  | .error e => .error e
  | .ok _ => asValidation (FewShotResponse.parse resp.body)

/-- A server that returns the same response to every request; quantifying over
it covers every behaviour an operation can observe, since each operation
consults the server exactly once. -/
def constServe (resp : HttpResponse) : String → JVal → HttpResponse :=
  fun _ _ => resp

-- ── Command layer (cli.py) ──────────────────────────────────────────────────

/-- The outcome of one CLI command invocation: process exit code, lines
printed to the error stream, URLs of HTTP requests issued (in order), and
whether a transport client was constructed. -/
structure CmdResult where
  exitCode : Nat
  errOutput : List String
  networkCalls : List String
  clientConstructed : Bool

/-- `_fatal` (cli.py lines 39-42): print an error line naming the failure to
the error stream and exit with code 1 (markup tags elided). -/
def fatalResult (message : String) (calls : List String) (constructed : Bool) :
    CmdResult :=
  { exitCode := 1, errOutput := ["Error: " ++ message],
    networkCalls := calls, clientConstructed := constructed }

/-- The file-gathering loop of the upload command (cli.py lines 156-163):
walk the given paths in order; the first path that does not exist aborts with
that path, otherwise each file's text is read into an `UploadFile`.  The local
file system is modelled as a partial map from path to text content. -/
def readUploadFiles (fs : String → Option String) :
    List String → Except String (List UploadFile)
  | [] => .ok []
  | fp :: rest =>
    match fs fp with
    | none => .error fp
    | some content =>
      match readUploadFiles fs rest with
      | .ok more => .ok (⟨fp, content⟩ :: more)
      | .error e => .error e

/-- Render an operation error the way the command layer interpolates it into
its message. -/
def ApiError.toMessage : ApiError → String
  | .transport status _ => "HTTP status " ++ toString status
  | .validation m => m

/-- The `upload` command (cli.py lines 145-187): gather local files (aborting
on the first missing path before any client exists), construct the client
(aborting on a missing API key), build the `UploadRequest`, POST it, and
report the outcome.  A pydantic error from request construction escapes the
command function uncaught, terminating the process with exit code 1 without
any network call. -/
def uploadCmd (fs : String → Option String) (env : Option String)
    (serve : String → JVal → HttpResponse) (task : String) (files : List String)
    (succeeded : Bool) (noAutoVote : Bool) : CmdResult :=
  match readUploadFiles fs files with
  | .error fp => fatalResult ("File not found: " ++ fp) [] false
  | .ok files_written =>
    match RaysurferClient.init none DEFAULT_BASE_URL DEFAULT_TIMEOUT env with
    | .error msg => fatalResult msg [] false
    | .ok client =>
      match uploadBuildRequest task files_written succeeded noAutoVote with
      | .error msg =>
        { exitCode := 1, errOutput := [msg], networkCalls := [],
          clientConstructed := true }
      | .ok req =>
        let url := requestURL client "/api/store/execution-result"
        match RaysurferClient.upload client req serve with
        | .error e =>
          fatalResult ("Upload failed: " ++ e.toMessage) [url] true
        | .ok _ =>
          { exitCode := 0, errOutput := [], networkCalls := [url],
            clientConstructed := true }

/-- The name column of the search result table (cli.py line 110):
`(cb.name if cb and cb.name else match.filename) or "unnamed"`. -/
def displayName (m : SearchMatch) : String :=
  let name :=
    match m.code_block with
    | some cb => if cb.name = "" then m.filename else cb.name
    | none => m.filename
  if name = "" then "unnamed" else name

/-- The language column of the search result table (cli.py line 112):
`(cb.language if cb else "") or match.language or ""`. -/
def displayLanguage (m : SearchMatch) : String :=
  let fromCb :=
    match m.code_block with
    | some cb => cb.language
    | none => ""
  let lang := if fromCb = "" then m.language else fromCb
  if lang = "" then "" else lang

-- ── Well-typedness of response payload fields (for tolerance properties) ────

/-- A JSON object field position either absent or holding a string. -/
def strFieldOK (x : Option JVal) : Prop :=
  x = none ∨ ∃ s, x = some (.str s)

/-- A JSON object field position either absent or holding a boolean. -/
def boolFieldOK (x : Option JVal) : Prop :=
  x = none ∨ ∃ b, x = some (.bool b)

/-- A JSON object field position either absent or holding an integer. -/
def intFieldOK (x : Option JVal) : Prop :=
  x = none ∨ ∃ n : Int, x = some (.int n)

/-- A JSON object field position either absent or holding a number. -/
def floatFieldOK (x : Option JVal) : Prop :=
  x = none ∨ (∃ q : Rat, x = some (.float q)) ∨ ∃ n : Int, x = some (.int n)

/-- A JSON object field position either absent or holding an array of strings. -/
def strListFieldOK (x : Option JVal) : Prop :=
  x = none ∨ ∃ ss : List String, x = some (.list (ss.map .str))

/-- A JSON object whose `CodeBlock`-declared fields, where present, are
well-typed (nothing is required of other keys). -/
def codeBlockFieldsOK (o : List (String × JVal)) : Prop :=
  strFieldOK (getField o "id") ∧ strFieldOK (getField o "name")
  ∧ strFieldOK (getField o "description") ∧ strFieldOK (getField o "source")
  ∧ strFieldOK (getField o "entrypoint") ∧ strFieldOK (getField o "language")
  ∧ strListFieldOK (getField o "dependencies")
  ∧ strListFieldOK (getField o "tags")

/-- An `Optional[CodeBlock]` field position: absent, `null`, or a well-typed
`CodeBlock` object. -/
def optCBFieldOK (x : Option JVal) : Prop :=
  x = none ∨ x = some .null ∨ ∃ o, x = some (.obj o) ∧ codeBlockFieldsOK o

/-- A JSON object whose `SearchMatch`-declared fields, where present, are
well-typed. -/
def searchMatchFieldsOK (o : List (String × JVal)) : Prop :=
  optCBFieldOK (getField o "code_block")
  ∧ floatFieldOK (getField o "combined_score")
  ∧ floatFieldOK (getField o "vector_score")
  ∧ floatFieldOK (getField o "verdict_score")
  ∧ intFieldOK (getField o "thumbs_up") ∧ intFieldOK (getField o "thumbs_down")
  ∧ strFieldOK (getField o "filename") ∧ strFieldOK (getField o "language")
  ∧ strFieldOK (getField o "entrypoint")
  ∧ strListFieldOK (getField o "dependencies")

/-- A `List[SearchMatch]` field position: absent or an array of well-typed
`SearchMatch` objects. -/
def matchListFieldOK (x : Option JVal) : Prop :=
  x = none ∨ ∃ vs, x = some (.list vs)
    ∧ ∀ v ∈ vs, ∃ o, v = JVal.obj o ∧ searchMatchFieldsOK o

/-- A JSON object whose `SearchResponse`-declared fields, where present, are
well-typed. -/
def searchResponseFieldsOK (o : List (String × JVal)) : Prop :=
  matchListFieldOK (getField o "matches")
  ∧ intFieldOK (getField o "total_found")
  ∧ boolFieldOK (getField o "cache_hit")
  ∧ strListFieldOK (getField o "search_namespaces")

/-- A JSON object whose `UploadResponse`-declared fields, where present, are
well-typed. -/
def uploadResponseFieldsOK (o : List (String × JVal)) : Prop :=
  boolFieldOK (getField o "success")
  ∧ strListFieldOK (getField o "code_block_ids")
  ∧ strFieldOK (getField o "message")

/-- A JSON object whose `VoteResponse`-declared fields, where present, are
well-typed. -/
def voteResponseFieldsOK (o : List (String × JVal)) : Prop :=
  boolFieldOK (getField o "success") ∧ strFieldOK (getField o "message")

/-- A JSON object whose `PatternEntry`-declared fields, where present, are
well-typed. -/
def patternEntryFieldsOK (o : List (String × JVal)) : Prop :=
  optCBFieldOK (getField o "code_block")
  ∧ intFieldOK (getField o "thumbs_up") ∧ intFieldOK (getField o "thumbs_down")
  ∧ floatFieldOK (getField o "combined_score")

/-- A `List[PatternEntry]` field position. -/
def patternListFieldOK (x : Option JVal) : Prop :=
  x = none ∨ ∃ vs, x = some (.list vs)
    ∧ ∀ v ∈ vs, ∃ o, v = JVal.obj o ∧ patternEntryFieldsOK o

/-- A JSON object whose `PatternsResponse`-declared field, where present, is
well-typed. -/
def patternsResponseFieldsOK (o : List (String × JVal)) : Prop :=
  patternListFieldOK (getField o "patterns")

/-- A JSON object whose `FewShotExample`-declared fields, where present, are
well-typed. -/
def fewShotExampleFieldsOK (o : List (String × JVal)) : Prop :=
  strFieldOK (getField o "task") ∧ strFieldOK (getField o "code")

/-- A `List[FewShotExample]` field position. -/
def exampleListFieldOK (x : Option JVal) : Prop :=
  x = none ∨ ∃ vs, x = some (.list vs)
    ∧ ∀ v ∈ vs, ∃ o, v = JVal.obj o ∧ fewShotExampleFieldsOK o

/-- A JSON object whose `FewShotResponse`-declared field, where present, is
well-typed. -/
def fewShotResponseFieldsOK (o : List (String × JVal)) : Prop :=
  exampleListFieldOK (getField o "examples")

/-- The declared field names of `PatternEntry`. -/
def patternEntryKeys : List String :=
  ["code_block", "thumbs_up", "thumbs_down", "combined_score"]

/-- The declared field names of `PatternsResponse`. -/
def patternsResponseKeys : List String := ["patterns"]

/-- The declared field names of `FewShotExample`. -/
def fewShotExampleKeys : List String := ["task", "code"]

/-- The declared field names of `FewShotResponse`. -/
def fewShotResponseKeys : List String := ["examples"]

-- ── Helper lemmas ───────────────────────────────────────────────────────────

theorem ebind_ok {α β : Type} (a : α) (f : α → Except String β) :
    ebind (.ok a) f = f a := rfl

theorem ebind_error {α β : Type} (e : String) (f : α → Except String β) :
    ebind (.error e) f = .error e := rfl

theorem getField_append_none {α : Type} (o e : List (String × α)) (k : String)
    (he : getField e k = none) : getField (o ++ e) k = getField o k := by
  induction o with
  | nil => simpa [getField] using he
  | cons kv rest ih =>
    obtain ⟨k2, v⟩ := kv
    by_cases hk : k2 = k
    · simp [getField, hk]
    · simp [getField, hk, ih]

theorem getField_none_of_keys {α : Type} (e : List (String × α)) (k : String)
    (h : ∀ kv ∈ e, kv.1 ≠ k) : getField e k = none := by
  induction e with
  | nil => rfl
  | cons kv rest ih =>
    obtain ⟨k2, v⟩ := kv
    have hne : k2 ≠ k := h (k2, v) (by simp)
    have hrest : getField rest k = none := ih (fun kv hkv => h kv (by simp [hkv]))
    simp [getField, hne, hrest]

theorem optField_ok {α : Type} (o : List (String × JVal)) (k : String)
    (dec : JVal → Except String α) (d : α)
    (h : getField o k = none ∨ ∃ v a, getField o k = some v ∧ dec v = .ok a) :
    ∃ a, optField o k dec d = .ok a ∧ (getField o k = none → a = d) := by
  rcases h with h | ⟨v, a, hv, ha⟩
  · exact ⟨d, by simp [optField, h], fun _ => rfl⟩
  · refine ⟨a, by simp [optField, hv, ha], fun hn => ?_⟩
    rw [hn] at hv
    cases hv

theorem optStr_ok (o : List (String × JVal)) (k : String) (d : String)
    (h : strFieldOK (getField o k)) :
    ∃ a, optField o k decodeStr d = .ok a ∧ (getField o k = none → a = d) := by
  refine optField_ok o k decodeStr d ?_
  rcases h with h | ⟨s, hs⟩
  · exact .inl h
  · exact .inr ⟨_, s, hs, rfl⟩

theorem optBool_ok (o : List (String × JVal)) (k : String) (d : Bool)
    (h : boolFieldOK (getField o k)) :
    ∃ a, optField o k decodeBool d = .ok a ∧ (getField o k = none → a = d) := by
  refine optField_ok o k decodeBool d ?_
  rcases h with h | ⟨b, hb⟩
  · exact .inl h
  · exact .inr ⟨_, b, hb, rfl⟩

theorem optInt_ok (o : List (String × JVal)) (k : String) (d : Int)
    (h : intFieldOK (getField o k)) :
    ∃ a, optField o k decodeInt d = .ok a ∧ (getField o k = none → a = d) := by
  refine optField_ok o k decodeInt d ?_
  rcases h with h | ⟨n, hn⟩
  · exact .inl h
  · exact .inr ⟨_, n, hn, rfl⟩

theorem optFloat_ok (o : List (String × JVal)) (k : String) (d : Rat)
    (h : floatFieldOK (getField o k)) :
    ∃ a, optField o k decodeFloat d = .ok a ∧ (getField o k = none → a = d) := by
  refine optField_ok o k decodeFloat d ?_
  rcases h with h | ⟨q, hq⟩ | ⟨n, hn⟩
  · exact .inl h
  · exact .inr ⟨_, q, hq, rfl⟩
  · exact .inr ⟨_, (n : Rat), hn, rfl⟩

theorem decodeListWith_encode {α : Type} {dec : JVal → Except String α}
    {enc : α → JVal} (h : ∀ a, dec (enc a) = .ok a) (xs : List α) :
    decodeListWith dec (xs.map enc) = .ok xs := by
  induction xs with
  | nil => rfl
  | cons a rest ih => simp [decodeListWith, h, ih]

theorem decodeStrs_map (ss : List String) :
    decodeListWith decodeStr (ss.map .str) = .ok ss :=
  @decodeListWith_encode String decodeStr JVal.str (fun _ => rfl) ss

theorem decodeListWith_ok_of_forall {α : Type} (dec : JVal → Except String α)
    (vs : List JVal) (h : ∀ v ∈ vs, ∃ a, dec v = .ok a) :
    ∃ xs, decodeListWith dec vs = .ok xs := by
  induction vs with
  | nil => exact ⟨[], rfl⟩
  | cons v rest ih =>
    obtain ⟨a, ha⟩ := h v (by simp)
    obtain ⟨xs, hxs⟩ := ih (fun w hw => h w (by simp [hw]))
    exact ⟨a :: xs, by simp [decodeListWith, ha, hxs]⟩

theorem optStrList_ok (o : List (String × JVal)) (k : String)
    (h : strListFieldOK (getField o k)) :
    ∃ a, optField o k (decodeList decodeStr) [] = .ok a
      ∧ (getField o k = none → a = []) := by
  refine optField_ok o k (decodeList decodeStr) [] ?_
  rcases h with h | ⟨ss, hss⟩
  · exact .inl h
  · exact .inr ⟨_, ss, hss, by simp [decodeList, decodeStrs_map]⟩

theorem codeBlock_parse_ok (o : List (String × JVal)) (h : codeBlockFieldsOK o) :
    ∃ cb, CodeBlock.parse (.obj o) = .ok cb
      ∧ (getField o "id" = none → cb.id = "")
      ∧ (getField o "name" = none → cb.name = "")
      ∧ (getField o "description" = none → cb.description = "")
      ∧ (getField o "source" = none → cb.source = "")
      ∧ (getField o "entrypoint" = none → cb.entrypoint = "")
      ∧ (getField o "language" = none → cb.language = "")
      ∧ (getField o "dependencies" = none → cb.dependencies = [])
      ∧ (getField o "tags" = none → cb.tags = []) := by
  obtain ⟨h1, h2, h3, h4, h5, h6, h7, h8⟩ := h
  obtain ⟨a1, e1, d1⟩ := optStr_ok o "id" "" h1
  obtain ⟨a2, e2, d2⟩ := optStr_ok o "name" "" h2
  obtain ⟨a3, e3, d3⟩ := optStr_ok o "description" "" h3
  obtain ⟨a4, e4, d4⟩ := optStr_ok o "source" "" h4
  obtain ⟨a5, e5, d5⟩ := optStr_ok o "entrypoint" "" h5
  obtain ⟨a6, e6, d6⟩ := optStr_ok o "language" "" h6
  obtain ⟨a7, e7, d7⟩ := optStrList_ok o "dependencies" h7
  obtain ⟨a8, e8, d8⟩ := optStrList_ok o "tags" h8
  exact ⟨⟨a1, a2, a3, a4, a5, a6, a7, a8⟩,
    by simp [CodeBlock.parse, e1, e2, e3, e4, e5, e6, e7, e8, ebind],
    d1, d2, d3, d4, d5, d6, d7, d8⟩

theorem optCB_ok (o : List (String × JVal)) (k : String)
    (h : optCBFieldOK (getField o k)) :
    ∃ a, optField o k decodeOptCB none = .ok a
      ∧ (getField o k = none → a = none) := by
  rcases h with h | h | ⟨o2, ho2, hok⟩
  · exact optField_ok o k decodeOptCB none (.inl h)
  · exact optField_ok o k decodeOptCB none (.inr ⟨.null, none, h, rfl⟩)
  · obtain ⟨cb, hcb, -⟩ := codeBlock_parse_ok o2 hok
    exact optField_ok o k decodeOptCB none
      (.inr ⟨_, some cb, ho2, by simp [decodeOptCB, hcb]⟩)

theorem searchMatch_parse_ok (o : List (String × JVal))
    (h : searchMatchFieldsOK o) :
    ∃ m, SearchMatch.parse (.obj o) = .ok m
      ∧ (getField o "code_block" = none → m.code_block = none)
      ∧ (getField o "combined_score" = none → m.combined_score = 0)
      ∧ (getField o "vector_score" = none → m.vector_score = 0)
      ∧ (getField o "verdict_score" = none → m.verdict_score = 0)
      ∧ (getField o "thumbs_up" = none → m.thumbs_up = 0)
      ∧ (getField o "thumbs_down" = none → m.thumbs_down = 0)
      ∧ (getField o "filename" = none → m.filename = "")
      ∧ (getField o "language" = none → m.language = "")
      ∧ (getField o "entrypoint" = none → m.entrypoint = "")
      ∧ (getField o "dependencies" = none → m.dependencies = []) := by
  obtain ⟨h1, h2, h3, h4, h5, h6, h7, h8, h9, h10⟩ := h
  obtain ⟨a1, e1, d1⟩ := optCB_ok o "code_block" h1
  obtain ⟨a2, e2, d2⟩ := optFloat_ok o "combined_score" 0 h2
  obtain ⟨a3, e3, d3⟩ := optFloat_ok o "vector_score" 0 h3
  obtain ⟨a4, e4, d4⟩ := optFloat_ok o "verdict_score" 0 h4
  obtain ⟨a5, e5, d5⟩ := optInt_ok o "thumbs_up" 0 h5
  obtain ⟨a6, e6, d6⟩ := optInt_ok o "thumbs_down" 0 h6
  obtain ⟨a7, e7, d7⟩ := optStr_ok o "filename" "" h7
  obtain ⟨a8, e8, d8⟩ := optStr_ok o "language" "" h8
  obtain ⟨a9, e9, d9⟩ := optStr_ok o "entrypoint" "" h9
  obtain ⟨a10, e10, d10⟩ := optStrList_ok o "dependencies" h10
  exact ⟨⟨a1, a2, a3, a4, a5, a6, a7, a8, a9, a10⟩,
    by simp [SearchMatch.parse, e1, e2, e3, e4, e5, e6, e7, e8, e9, e10, ebind],
    d1, d2, d3, d4, d5, d6, d7, d8, d9, d10⟩

theorem optMatchList_ok (o : List (String × JVal)) (k : String)
    (h : matchListFieldOK (getField o k)) :
    ∃ a, optField o k (decodeList SearchMatch.parse) [] = .ok a
      ∧ (getField o k = none → a = []) := by
  rcases h with h | ⟨vs, hvs, hall⟩
  · exact optField_ok o k (decodeList SearchMatch.parse) [] (.inl h)
  · have hex : ∀ v ∈ vs, ∃ m, SearchMatch.parse v = .ok m := by
      intro v hv
      obtain ⟨o2, rfl, hok⟩ := hall v hv
      obtain ⟨m, hm, -⟩ := searchMatch_parse_ok o2 hok
      exact ⟨m, hm⟩
    obtain ⟨ms, hms⟩ := decodeListWith_ok_of_forall SearchMatch.parse vs hex
    exact optField_ok o k (decodeList SearchMatch.parse) []
      (.inr ⟨_, ms, hvs, by simp [decodeList, hms]⟩)

theorem searchResponse_parse_ok (o : List (String × JVal))
    (h : searchResponseFieldsOK o) :
    ∃ r, SearchResponse.parse (.obj o) = .ok r
      ∧ (getField o "matches" = none → r.«matches» = [])
      ∧ (getField o "total_found" = none → r.total_found = 0)
      ∧ (getField o "cache_hit" = none → r.cache_hit = false)
      ∧ (getField o "search_namespaces" = none → r.search_namespaces = []) := by
  obtain ⟨h1, h2, h3, h4⟩ := h
  obtain ⟨a1, e1, d1⟩ := optMatchList_ok o "matches" h1
  obtain ⟨a2, e2, d2⟩ := optInt_ok o "total_found" 0 h2
  obtain ⟨a3, e3, d3⟩ := optBool_ok o "cache_hit" false h3
  obtain ⟨a4, e4, d4⟩ := optStrList_ok o "search_namespaces" h4
  exact ⟨⟨a1, a2, a3, a4⟩,
    by simp [SearchResponse.parse, e1, e2, e3, e4, ebind], d1, d2, d3, d4⟩

theorem uploadResponse_parse_ok (o : List (String × JVal))
    (h : uploadResponseFieldsOK o) :
    ∃ r, UploadResponse.parse (.obj o) = .ok r
      ∧ (getField o "success" = none → r.success = false)
      ∧ (getField o "code_block_ids" = none → r.code_block_ids = [])
      ∧ (getField o "message" = none → r.message = "") := by
  obtain ⟨h1, h2, h3⟩ := h
  obtain ⟨a1, e1, d1⟩ := optBool_ok o "success" false h1
  obtain ⟨a2, e2, d2⟩ := optStrList_ok o "code_block_ids" h2
  obtain ⟨a3, e3, d3⟩ := optStr_ok o "message" "" h3
  exact ⟨⟨a1, a2, a3⟩,
    by simp [UploadResponse.parse, e1, e2, e3, ebind], d1, d2, d3⟩

theorem voteResponse_parse_ok (o : List (String × JVal))
    (h : voteResponseFieldsOK o) :
    ∃ r, VoteResponse.parse (.obj o) = .ok r
      ∧ (getField o "success" = none → r.success = false)
      ∧ (getField o "message" = none → r.message = "") := by
  obtain ⟨h1, h2⟩ := h
  obtain ⟨a1, e1, d1⟩ := optBool_ok o "success" false h1
  obtain ⟨a2, e2, d2⟩ := optStr_ok o "message" "" h2
  exact ⟨⟨a1, a2⟩, by simp [VoteResponse.parse, e1, e2, ebind], d1, d2⟩

theorem patternEntry_parse_ok (o : List (String × JVal))
    (h : patternEntryFieldsOK o) :
    ∃ p, PatternEntry.parse (.obj o) = .ok p
      ∧ (getField o "code_block" = none → p.code_block = none)
      ∧ (getField o "thumbs_up" = none → p.thumbs_up = 0)
      ∧ (getField o "thumbs_down" = none → p.thumbs_down = 0)
      ∧ (getField o "combined_score" = none → p.combined_score = 0) := by
  obtain ⟨h1, h2, h3, h4⟩ := h
  obtain ⟨a1, e1, d1⟩ := optCB_ok o "code_block" h1
  obtain ⟨a2, e2, d2⟩ := optInt_ok o "thumbs_up" 0 h2
  obtain ⟨a3, e3, d3⟩ := optInt_ok o "thumbs_down" 0 h3
  obtain ⟨a4, e4, d4⟩ := optFloat_ok o "combined_score" 0 h4
  exact ⟨⟨a1, a2, a3, a4⟩,
    by simp [PatternEntry.parse, e1, e2, e3, e4, ebind], d1, d2, d3, d4⟩

theorem optPatternList_ok (o : List (String × JVal)) (k : String)
    (h : patternListFieldOK (getField o k)) :
    ∃ a, optField o k (decodeList PatternEntry.parse) [] = .ok a
      ∧ (getField o k = none → a = []) := by
  rcases h with h | ⟨vs, hvs, hall⟩
  · exact optField_ok o k (decodeList PatternEntry.parse) [] (.inl h)
  · have hex : ∀ v ∈ vs, ∃ p, PatternEntry.parse v = .ok p := by
      intro v hv
      obtain ⟨o2, rfl, hok⟩ := hall v hv
      obtain ⟨p, hp, -⟩ := patternEntry_parse_ok o2 hok
      exact ⟨p, hp⟩
    obtain ⟨ps, hps⟩ := decodeListWith_ok_of_forall PatternEntry.parse vs hex
    exact optField_ok o k (decodeList PatternEntry.parse) []
      (.inr ⟨_, ps, hvs, by simp [decodeList, hps]⟩)

theorem patternsResponse_parse_ok (o : List (String × JVal))
    (h : patternsResponseFieldsOK o) :
    ∃ r, PatternsResponse.parse (.obj o) = .ok r
      ∧ (getField o "patterns" = none → r.patterns = []) := by
  obtain ⟨a1, e1, d1⟩ := optPatternList_ok o "patterns" h
  exact ⟨⟨a1⟩, by simp [PatternsResponse.parse, e1, ebind], d1⟩

theorem fewShotExample_parse_ok (o : List (String × JVal))
    (h : fewShotExampleFieldsOK o) :
    ∃ ex, FewShotExample.parse (.obj o) = .ok ex
      ∧ (getField o "task" = none → ex.task = "")
      ∧ (getField o "code" = none → ex.code = "") := by
  obtain ⟨h1, h2⟩ := h
  obtain ⟨a1, e1, d1⟩ := optStr_ok o "task" "" h1
  obtain ⟨a2, e2, d2⟩ := optStr_ok o "code" "" h2
  exact ⟨⟨a1, a2⟩, by simp [FewShotExample.parse, e1, e2, ebind], d1, d2⟩

theorem optExampleList_ok (o : List (String × JVal)) (k : String)
    (h : exampleListFieldOK (getField o k)) :
    ∃ a, optField o k (decodeList FewShotExample.parse) [] = .ok a
      ∧ (getField o k = none → a = []) := by
  rcases h with h | ⟨vs, hvs, hall⟩
  · exact optField_ok o k (decodeList FewShotExample.parse) [] (.inl h)
  · have hex : ∀ v ∈ vs, ∃ ex, FewShotExample.parse v = .ok ex := by
      intro v hv
      obtain ⟨o2, rfl, hok⟩ := hall v hv
      obtain ⟨ex, hx, -⟩ := fewShotExample_parse_ok o2 hok
      exact ⟨ex, hx⟩
    obtain ⟨es, hes⟩ := decodeListWith_ok_of_forall FewShotExample.parse vs hex
    exact optField_ok o k (decodeList FewShotExample.parse) []
      (.inr ⟨_, es, hvs, by simp [decodeList, hes]⟩)

theorem fewShotResponse_parse_ok (o : List (String × JVal))
    (h : fewShotResponseFieldsOK o) :
    ∃ r, FewShotResponse.parse (.obj o) = .ok r
      ∧ (getField o "examples" = none → r.examples = []) := by
  obtain ⟨a1, e1, d1⟩ := optExampleList_ok o "examples" h
  exact ⟨⟨a1⟩, by simp [FewShotResponse.parse, e1, ebind], d1⟩

theorem getField_append_of_declared {α : Type} (o e : List (String × α))
    (ks : List String) (k : String) (hk : k ∈ ks)
    (h : ∀ kv ∈ e, kv.1 ∉ ks) : getField (o ++ e) k = getField o k := by
  refine getField_append_none o e k (getField_none_of_keys e k ?_)
  intro kv hkv hEq
  exact h kv hkv (hEq ▸ hk)

theorem patternEntry_parse_append (o e : List (String × JVal))
    (h : ∀ kv ∈ e, kv.1 ∉ patternEntryKeys) :
    PatternEntry.parse (.obj (o ++ e)) = PatternEntry.parse (.obj o) := by
  have g1 := getField_append_of_declared o e patternEntryKeys "code_block"
    (by simp [patternEntryKeys]) h
  have g2 := getField_append_of_declared o e patternEntryKeys "thumbs_up"
    (by simp [patternEntryKeys]) h
  have g3 := getField_append_of_declared o e patternEntryKeys "thumbs_down"
    (by simp [patternEntryKeys]) h
  have g4 := getField_append_of_declared o e patternEntryKeys "combined_score"
    (by simp [patternEntryKeys]) h
  simp only [PatternEntry.parse, optField, g1, g2, g3, g4]

theorem patternsResponse_parse_append (o e : List (String × JVal))
    (h : ∀ kv ∈ e, kv.1 ∉ patternsResponseKeys) :
    PatternsResponse.parse (.obj (o ++ e)) = PatternsResponse.parse (.obj o) := by
  have g1 := getField_append_of_declared o e patternsResponseKeys "patterns"
    (by simp [patternsResponseKeys]) h
  simp only [PatternsResponse.parse, optField, g1]

theorem fewShotExample_parse_append (o e : List (String × JVal))
    (h : ∀ kv ∈ e, kv.1 ∉ fewShotExampleKeys) :
    FewShotExample.parse (.obj (o ++ e)) = FewShotExample.parse (.obj o) := by
  have g1 := getField_append_of_declared o e fewShotExampleKeys "task"
    (by simp [fewShotExampleKeys]) h
  have g2 := getField_append_of_declared o e fewShotExampleKeys "code"
    (by simp [fewShotExampleKeys]) h
  simp only [FewShotExample.parse, optField, g1, g2]

theorem fewShotResponse_parse_append (o e : List (String × JVal))
    (h : ∀ kv ∈ e, kv.1 ∉ fewShotResponseKeys) :
    FewShotResponse.parse (.obj (o ++ e)) = FewShotResponse.parse (.obj o) := by
  have g1 := getField_append_of_declared o e fewShotResponseKeys "examples"
    (by simp [fewShotResponseKeys]) h
  simp only [FewShotResponse.parse, optField, g1]

theorem codeBlock_parse_dump (cb : CodeBlock) :
    CodeBlock.parse cb.dump = .ok cb := by
  simp [CodeBlock.parse, CodeBlock.dump, optField, getField, ebind,
    decodeStr, decodeList, decodeStrs_map]

theorem optCB_dump (x : Option CodeBlock) : decodeOptCB (dumpOptCB x) = .ok x := by
  cases x with
  | none => rfl
  | some cb =>
    have h := codeBlock_parse_dump cb
    simp only [dumpOptCB, CodeBlock.dump] at h ⊢
    simp [decodeOptCB, h]

theorem searchMatch_parse_dump (m : SearchMatch) :
    SearchMatch.parse m.dump = .ok m := by
  simp [SearchMatch.parse, SearchMatch.dump, optField, getField, ebind,
    decodeStr, decodeBool, decodeInt, decodeFloat, decodeList, decodeStrs_map,
    optCB_dump]

theorem searchResponse_parse_dump (r : SearchResponse) :
    SearchResponse.parse r.dump = .ok r := by
  simp [SearchResponse.parse, SearchResponse.dump, optField, getField, ebind,
    decodeBool, decodeInt, decodeList, decodeStrs_map,
    decodeListWith_encode searchMatch_parse_dump]

theorem uploadResponse_parse_dump (r : UploadResponse) :
    UploadResponse.parse r.dump = .ok r := by
  simp [UploadResponse.parse, UploadResponse.dump, optField, getField, ebind,
    decodeStr, decodeBool, decodeList, decodeStrs_map]

theorem voteResponse_parse_dump (r : VoteResponse) :
    VoteResponse.parse r.dump = .ok r := by
  simp [VoteResponse.parse, VoteResponse.dump, optField, getField, ebind,
    decodeStr, decodeBool]

theorem patternEntry_parse_dump (p : PatternEntry) :
    PatternEntry.parse p.dump = .ok p := by
  simp [PatternEntry.parse, PatternEntry.dump, optField, getField, ebind,
    decodeInt, decodeFloat, optCB_dump]

theorem patternsResponse_parse_dump (r : PatternsResponse) :
    PatternsResponse.parse r.dump = .ok r := by
  simp [PatternsResponse.parse, PatternsResponse.dump, optField, getField,
    ebind, decodeList, decodeListWith_encode patternEntry_parse_dump]

theorem fewShotExample_parse_dump (ex : FewShotExample) :
    FewShotExample.parse ex.dump = .ok ex := by
  simp [FewShotExample.parse, FewShotExample.dump, optField, getField, ebind,
    decodeStr]

theorem fewShotResponse_parse_dump (r : FewShotResponse) :
    FewShotResponse.parse r.dump = .ok r := by
  simp [FewShotResponse.parse, FewShotResponse.dump, optField, getField, ebind,
    decodeList, decodeListWith_encode fewShotExample_parse_dump]

theorem pyRstripSlashes_append_slash (b : String) :
    pyRstripSlashes (b ++ "/") = pyRstripSlashes b := by
  simp [pyRstripSlashes, String.data_append, List.dropWhile]

theorem head?_dropWhile_false {p : Char → Bool} (l : List Char) (a : Char)
    (h : (l.dropWhile p).head? = some a) : p a = false := by
  induction l with
  | nil => simp [List.dropWhile] at h
  | cons x xs ih =>
    rw [List.dropWhile_cons] at h
    by_cases hp : p x
    · rw [if_pos hp] at h; exact ih h
    · rw [if_neg hp] at h
      simp at h
      rw [← h]
      exact Bool.of_not_eq_true hp

theorem pyRstripSlashes_no_trailing (b : String) :
    (pyRstripSlashes b).data.getLast? ≠ some '/' := by
  intro h
  rw [pyRstripSlashes] at h
  rw [List.getLast?_reverse] at h
  have := head?_dropWhile_false (b.data.reverse) '/' h
  simp at this

theorem _get_api_key_ok (env : Option String) (k : String)
    (h : _get_api_key env = .ok k) : k ≠ "" := by
  unfold _get_api_key at h
  by_cases he : env.getD "" = ""
  · rw [if_pos he] at h; cases h
  · rw [if_neg he] at h; cases h; exact he

theorem resolveApiKey_ok (ak env : Option String) (k : String)
    (h : resolveApiKey ak env = .ok k) : k ≠ "" := by
  cases ak with
  | none => exact _get_api_key_ok env k h
  | some a =>
    simp only [resolveApiKey] at h
    by_cases ha : a = ""
    · rw [if_pos ha] at h; exact _get_api_key_ok env k h
    · rw [if_neg ha] at h; cases h; exact ha

theorem raysurferClient_init_ok (ak env : Option String) (b : String) (t : Rat)
    (c : RaysurferClient) (h : RaysurferClient.init ak b t env = .ok c) :
    c.api_key ≠ "" ∧ c.base_url = pyRstripSlashes b := by
  unfold RaysurferClient.init RaysurferClient.initWithEvents at h
  cases hr : resolveApiKey ak env with
  | error e => rw [hr] at h; cases h
  | ok k =>
    rw [hr] at h
    cases h
    exact ⟨resolveApiKey_ok ak env k hr, rfl⟩

theorem asyncRaysurferClient_init_ok (ak env : Option String) (b : String)
    (t : Rat) (c : AsyncRaysurferClient)
    (h : AsyncRaysurferClient.init ak b t env = .ok c) :
    c.api_key ≠ "" ∧ c.base_url = pyRstripSlashes b := by
  unfold AsyncRaysurferClient.init AsyncRaysurferClient.initWithEvents at h
  cases hr : resolveApiKey ak env with
  | error e => rw [hr] at h; cases h
  | ok k =>
    rw [hr] at h
    cases h
    exact ⟨resolveApiKey_ok ak env k hr, rfl⟩

-- ── Claim theorems ──────────────────────────────────────────────────────────

/-- C1: the upload command's request construction (cli.py lines 166-171) can
never produce an `UploadRequest`: the command passes the keyword
`files_written` (the whole list of files read), while the model declares the
required field `file_written` (types.py line 33); pydantic ignores the unknown
keyword and reports the required field missing, so construction fails for
every task, every list of files and every flag combination — contradicting
the claim that a conforming request is constructed for every non-empty list
of existing input files. -/
theorem c1_upload_request_construction_always_fails (task : String)
    (files_written : List UploadFile) (succeeded nav : Bool) :
    uploadBuildRequest task files_written succeeded nav =
      .error "file_written: Field required" := rfl

/-- C2: constructing either client with no explicit key while the
RAYSURFER_API_KEY environment variable is unset fails with the RuntimeError
configuration message, and the construction's observable event trace contains
no HTTP request — the failure happens before any network activity. -/
theorem c2_missing_key_construction_fails (b : String) (t : Rat) :
    RaysurferClient.initWithEvents none b t none =
      (.error keyErrorMessage, [.envRead])
    ∧ AsyncRaysurferClient.initWithEvents none b t none =
      (.error keyErrorMessage, [.envRead])
    ∧ (∀ u, ClientEvent.httpRequest u ∉
        (RaysurferClient.initWithEvents none b t none).2)
    ∧ (∀ u, ClientEvent.httpRequest u ∉
        (AsyncRaysurferClient.initWithEvents none b t none).2) := by
  refine ⟨rfl, rfl, ?_, ?_⟩ <;>
  · intro u h
    simp [RaysurferClient.initWithEvents, AsyncRaysurferClient.initWithEvents,
      resolveApiKey, resolveApiKeyEvents, _get_api_key] at h

/-- Witness for C2 at a concrete base URL and timeout. -/
theorem c2_missing_key_construction_fails_witness :
    RaysurferClient.initWithEvents none "https://api.raysurfer.com" 30 none =
      (.error keyErrorMessage, [.envRead])
    ∧ ClientEvent.httpRequest "https://api.raysurfer.com/api/retrieve/search" ∉
        (RaysurferClient.initWithEvents none "https://api.raysurfer.com" 30 none).2 :=
  ⟨(c2_missing_key_construction_fails "https://api.raysurfer.com" 30).1,
   (c2_missing_key_construction_fails "https://api.raysurfer.com" 30).2.2.1 _⟩

/-- C6: the upload command invoked on a single path that does not exist in the
local file system exits with code 1, prints an error line naming the missing
path, performs zero network calls, and never constructs a client. -/
theorem c6_upload_missing_file (fs : String → Option String)
    (env : Option String) (serve : String → JVal → HttpResponse)
    (task fp : String) (s nav : Bool) (h : fs fp = none) :
    uploadCmd fs env serve task [fp] s nav =
      { exitCode := 1, errOutput := ["Error: " ++ ("File not found: " ++ fp)],
        networkCalls := [], clientConstructed := false } := by
  simp [uploadCmd, readUploadFiles, h, fatalResult]

/-- Witness for C6: an empty file system and the path "missing.py". -/
theorem c6_upload_missing_file_witness :
    (fun _ => (none : Option String)) "missing.py" = none
    ∧ uploadCmd (fun _ => none) none (constServe ⟨200, .null⟩) "t" ["missing.py"]
        true false =
      { exitCode := 1, errOutput := ["Error: File not found: missing.py"],
        networkCalls := [], clientConstructed := false } :=
  ⟨rfl, c6_upload_missing_file (fun _ => none) none (constServe ⟨200, .null⟩)
    "t" "missing.py" true false rfl⟩

/-- C8: the search table's name and language columns prefer the `CodeBlock`
fields; the match-level fallback `filename` / `language` are used only when
the code block is absent or its corresponding field is empty. -/
theorem c8_display_prefers_code_block (m : SearchMatch) :
    (∀ cb, m.code_block = some cb →
      (cb.name ≠ "" → displayName m = cb.name)
      ∧ (cb.name = "" →
          displayName m = (if m.filename = "" then "unnamed" else m.filename))
      ∧ (cb.language ≠ "" → displayLanguage m = cb.language)
      ∧ (cb.language = "" → displayLanguage m = m.language))
    ∧ (m.code_block = none →
      displayName m = (if m.filename = "" then "unnamed" else m.filename)
      ∧ displayLanguage m = m.language) := by
  constructor
  · intro cb hcb
    refine ⟨fun hn => ?_, fun hn => ?_, fun hl => ?_, fun hl => ?_⟩
    · simp [displayName, hcb, hn]
    · simp [displayName, hcb, hn]
    · simp [displayLanguage, hcb, hl]
    · simp only [displayLanguage, hcb, hl, if_pos rfl]
      by_cases h2 : m.language = "" <;> simp [h2]
  · intro hcb
    refine ⟨by simp [displayName, hcb], ?_⟩
    simp only [displayLanguage, hcb, if_pos rfl]
    by_cases h2 : m.language = "" <;> simp [h2]

/-- Witness for C8: a match whose code block has a non-empty name and
language, one whose code block has empty name and language, and one with no
code block. -/
theorem c8_display_prefers_code_block_witness :
    displayName ⟨some ⟨"i", "CBName", "", "", "", "py", [], []⟩,
      0, 0, 0, 0, 0, "fallback.py", "go", "", []⟩ = "CBName"
    ∧ displayLanguage ⟨some ⟨"i", "CBName", "", "", "", "py", [], []⟩,
      0, 0, 0, 0, 0, "fallback.py", "go", "", []⟩ = "py"
    ∧ displayName ⟨some ⟨"i", "", "", "", "", "", [], []⟩,
      0, 0, 0, 0, 0, "fallback.py", "go", "", []⟩ =
        (if ("fallback.py" : String) = "" then "unnamed" else "fallback.py")
    ∧ displayLanguage ⟨some ⟨"i", "", "", "", "", "", [], []⟩,
      0, 0, 0, 0, 0, "fallback.py", "go", "", []⟩ = "go"
    ∧ displayName ⟨none, 0, 0, 0, 0, 0, "fallback.py", "go", "", []⟩ =
        (if ("fallback.py" : String) = "" then "unnamed" else "fallback.py")
    ∧ displayLanguage ⟨none, 0, 0, 0, 0, 0, "fallback.py", "go", "", []⟩ = "go" :=
  ⟨((c8_display_prefers_code_block _).1 _ rfl).1 (by decide),
   ((c8_display_prefers_code_block _).1 _ rfl).2.2.1 (by decide),
   ((c8_display_prefers_code_block _).1 _ rfl).2.1 rfl,
   ((c8_display_prefers_code_block _).1 _ rfl).2.2.2 rfl,
   ((c8_display_prefers_code_block _).2 rfl).1,
   ((c8_display_prefers_code_block _).2 rfl).2⟩

/-- C9: both constructors strip all trailing '/' characters from the base
URL, so clients built from `b` and from `b ++ "/"` are identical, compose the
same request URL for every path, and a constructed client's base URL never
ends in '/'. -/
theorem c9_base_url_slash_normalization (ak : Option String) (b : String)
    (t : Rat) (env : Option String) :
    RaysurferClient.init ak (b ++ "/") t env = RaysurferClient.init ak b t env
    ∧ AsyncRaysurferClient.init ak (b ++ "/") t env =
        AsyncRaysurferClient.init ak b t env
    ∧ (∀ path, (RaysurferClient.init ak (b ++ "/") t env).map
          (fun c => requestURL c path)
        = (RaysurferClient.init ak b t env).map (fun c => requestURL c path))
    ∧ (∀ c : RaysurferClient, RaysurferClient.init ak b t env = .ok c →
        c.base_url.data.getLast? ≠ some '/') := by
  have hs : RaysurferClient.init ak (b ++ "/") t env =
      RaysurferClient.init ak b t env := by
    unfold RaysurferClient.init RaysurferClient.initWithEvents
    cases hr : resolveApiKey ak env with
    | error e => simp [hr]
    | ok k => simp [hr, pyRstripSlashes_append_slash]
  have ha : AsyncRaysurferClient.init ak (b ++ "/") t env =
      AsyncRaysurferClient.init ak b t env := by
    unfold AsyncRaysurferClient.init AsyncRaysurferClient.initWithEvents
    cases hr : resolveApiKey ak env with
    | error e => simp [hr]
    | ok k => simp [hr, pyRstripSlashes_append_slash]
  refine ⟨hs, ha, fun path => by rw [hs], fun c hc => ?_⟩
  rw [(raysurferClient_init_ok ak env b t c hc).2]
  exact pyRstripSlashes_no_trailing b

/-- Witness for C9 at a concrete key, base URL, timeout and environment. -/
theorem c9_base_url_slash_normalization_witness :
    RaysurferClient.init (some "k") ("https://api.raysurfer.com" ++ "/") 30 none
      = RaysurferClient.init (some "k") "https://api.raysurfer.com" 30 none
    ∧ (⟨"k", "https://api.raysurfer.com", 30⟩ :
        RaysurferClient).base_url.data.getLast? ≠ some '/' :=
  ⟨(c9_base_url_slash_normalization (some "k") "https://api.raysurfer.com"
      30 none).1,
   (c9_base_url_slash_normalization (some "k") "https://api.raysurfer.com"
      30 none).2.2.2 ⟨"k", "https://api.raysurfer.com", 30⟩ rfl⟩

/-- C10: an explicit empty-string API key behaves exactly like passing no key
(the environment is consulted and construction fails when it is unset), every
successfully constructed client stores a non-empty key, and the Authorization
header is the bearer form of that non-empty key. -/
theorem c10_empty_key_falls_back_to_env (b : String) (t : Rat)
    (env : Option String) :
    RaysurferClient.init (some "") b t env = RaysurferClient.init none b t env
    ∧ AsyncRaysurferClient.init (some "") b t env =
        AsyncRaysurferClient.init none b t env
    ∧ (env.getD "" = "" →
        RaysurferClient.init (some "") b t env = .error keyErrorMessage
        ∧ AsyncRaysurferClient.init (some "") b t env = .error keyErrorMessage)
    ∧ (∀ ak c, RaysurferClient.init ak b t env = .ok c →
        c.api_key ≠ ""
        ∧ getField (_headers c.api_key) "Authorization" =
            some ("Bearer " ++ c.api_key))
    ∧ (∀ ak c, AsyncRaysurferClient.init ak b t env = .ok c →
        c.api_key ≠ "") := by
  have hk : resolveApiKey (some "") env = resolveApiKey none env := by
    simp [resolveApiKey]
  refine ⟨?_, ?_, fun he => ⟨?_, ?_⟩, fun ak c hc => ?_, fun ak c hc => ?_⟩
  · unfold RaysurferClient.init RaysurferClient.initWithEvents
    cases hr : resolveApiKey none env with
    | error e => simp [hk, hr]
    | ok k => simp [hk, hr]
  · unfold AsyncRaysurferClient.init AsyncRaysurferClient.initWithEvents
    cases hr : resolveApiKey none env with
    | error e => simp [hk, hr]
    | ok k => simp [hk, hr]
  · unfold RaysurferClient.init RaysurferClient.initWithEvents
    simp [hk, resolveApiKey, _get_api_key, he]
  · unfold AsyncRaysurferClient.init AsyncRaysurferClient.initWithEvents
    simp [hk, resolveApiKey, _get_api_key, he]
  · exact ⟨(raysurferClient_init_ok ak env b t c hc).1, rfl⟩
  · exact (asyncRaysurferClient_init_ok ak env b t c hc).1

/-- Witness for C10 at a concrete base URL, timeout, unset environment, and a
concrete successful construction. -/
theorem c10_empty_key_falls_back_to_env_witness :
    RaysurferClient.init (some "") "u" 30 none = .error keyErrorMessage
    ∧ ((⟨"k", "u", 30⟩ : RaysurferClient).api_key ≠ ""
        ∧ getField (_headers (⟨"k", "u", 30⟩ : RaysurferClient).api_key)
            "Authorization" =
          some ("Bearer " ++ (⟨"k", "u", 30⟩ : RaysurferClient).api_key))
    ∧ (⟨"k", "u", 30⟩ : AsyncRaysurferClient).api_key ≠ "" :=
  ⟨((c10_empty_key_falls_back_to_env "u" 30 none).2.2.1 rfl).1,
   (c10_empty_key_falls_back_to_env "u" 30 none).2.2.2.1 (some "k")
     ⟨"k", "u", 30⟩ rfl,
   (c10_empty_key_falls_back_to_env "u" 30 none).2.2.2.2 (some "k")
     ⟨"k", "u", 30⟩ rfl⟩

/-- C3: for each of the five operations, a non-2xx status yields a transport
error carrying the status code and response body; on a 2xx status a
conforming body yields the parsed typed response and a non-conforming body
yields a validation error; the two error kinds are distinct constructors,
hence distinguishable by the caller. -/
theorem c3_operations_error_kinds (c : RaysurferClient) (resp : HttpResponse)
    (r1 : SearchRequest) (r2 : UploadRequest) (r3 : VoteRequest)
    (r4 : PatternsRequest) (r5 : FewShotRequest) :
    (is_success resp.status = false →
      c.search r1 (constServe resp) = .error (.transport resp.status resp.body)
      ∧ c.upload r2 (constServe resp) = .error (.transport resp.status resp.body)
      ∧ c.vote r3 (constServe resp) = .error (.transport resp.status resp.body)
      ∧ c.patterns r4 (constServe resp) =
          .error (.transport resp.status resp.body)
      ∧ c.few_shot_examples r5 (constServe resp) =
          .error (.transport resp.status resp.body))
    ∧ (is_success resp.status = true →
      (∀ v, SearchResponse.parse resp.body = .ok v →
        c.search r1 (constServe resp) = .ok v)
      ∧ (∀ m, SearchResponse.parse resp.body = .error m →
        c.search r1 (constServe resp) = .error (.validation m))
      ∧ (∀ v, UploadResponse.parse resp.body = .ok v →
        c.upload r2 (constServe resp) = .ok v)
      ∧ (∀ m, UploadResponse.parse resp.body = .error m →
        c.upload r2 (constServe resp) = .error (.validation m))
      ∧ (∀ v, VoteResponse.parse resp.body = .ok v →
        c.vote r3 (constServe resp) = .ok v)
      ∧ (∀ m, VoteResponse.parse resp.body = .error m →
        c.vote r3 (constServe resp) = .error (.validation m))
      ∧ (∀ v, PatternsResponse.parse resp.body = .ok v →
        c.patterns r4 (constServe resp) = .ok v)
      ∧ (∀ m, PatternsResponse.parse resp.body = .error m →
        c.patterns r4 (constServe resp) = .error (.validation m))
      ∧ (∀ v, FewShotResponse.parse resp.body = .ok v →
        c.few_shot_examples r5 (constServe resp) = .ok v)
      ∧ (∀ m, FewShotResponse.parse resp.body = .error m →
        c.few_shot_examples r5 (constServe resp) = .error (.validation m)))
    ∧ (∀ s b msg, ApiError.transport s b ≠ ApiError.validation msg) := by
  refine ⟨fun h => ⟨?_, ?_, ?_, ?_, ?_⟩, fun h => ?_, fun s b msg hne => by cases hne⟩
  · simp [RaysurferClient.search, constServe, raise_for_status, h]
  · simp [RaysurferClient.upload, constServe, raise_for_status, h]
  · simp [RaysurferClient.vote, constServe, raise_for_status, h]
  · simp [RaysurferClient.patterns, constServe, raise_for_status, h]
  · simp [RaysurferClient.few_shot_examples, constServe, raise_for_status, h]
  refine ⟨?_, ?_, ?_, ?_, ?_, ?_, ?_, ?_, ?_, ?_⟩ <;>
  · intro x hx
    simp [RaysurferClient.search, RaysurferClient.upload, RaysurferClient.vote,
      RaysurferClient.patterns, RaysurferClient.few_shot_examples, constServe,
      raise_for_status, h, asValidation, hx]

/-- Witness for C3: a concrete client against a 404 response, a conforming
200 response, and a malformed 200 response, for each operation. -/
theorem c3_operations_error_kinds_witness :
    RaysurferClient.search ⟨"k", "u", 30⟩ ⟨"t", 5, 0, true⟩
        (constServe ⟨404, .null⟩) = .error (.transport 404 .null)
    ∧ RaysurferClient.search ⟨"k", "u", 30⟩ ⟨"t", 5, 0, true⟩
        (constServe ⟨200, .obj []⟩) = .ok ⟨[], 0, false, []⟩
    ∧ RaysurferClient.search ⟨"k", "u", 30⟩ ⟨"t", 5, 0, true⟩
        (constServe ⟨200, .int 3⟩) =
          .error (.validation "SearchResponse: Input should be an object")
    ∧ RaysurferClient.upload ⟨"k", "u", 30⟩ ⟨"t", ⟨"a.py", "x"⟩, true, true⟩
        (constServe ⟨404, .null⟩) = .error (.transport 404 .null)
    ∧ RaysurferClient.upload ⟨"k", "u", 30⟩ ⟨"t", ⟨"a.py", "x"⟩, true, true⟩
        (constServe ⟨200, .obj []⟩) = .ok ⟨false, [], ""⟩
    ∧ RaysurferClient.upload ⟨"k", "u", 30⟩ ⟨"t", ⟨"a.py", "x"⟩, true, true⟩
        (constServe ⟨200, .int 3⟩) =
          .error (.validation "UploadResponse: Input should be an object")
    ∧ RaysurferClient.vote ⟨"k", "u", 30⟩ ⟨"abc123", false, "", "", ""⟩
        (constServe ⟨404, .null⟩) = .error (.transport 404 .null)
    ∧ RaysurferClient.vote ⟨"k", "u", 30⟩ ⟨"abc123", false, "", "", ""⟩
        (constServe ⟨200, .obj []⟩) = .ok ⟨false, ""⟩
    ∧ RaysurferClient.vote ⟨"k", "u", 30⟩ ⟨"abc123", false, "", "", ""⟩
        (constServe ⟨200, .int 3⟩) =
          .error (.validation "VoteResponse: Input should be an object")
    ∧ RaysurferClient.patterns ⟨"k", "u", 30⟩ ⟨"t", "", 1, 5⟩
        (constServe ⟨404, .null⟩) = .error (.transport 404 .null)
    ∧ RaysurferClient.patterns ⟨"k", "u", 30⟩ ⟨"t", "", 1, 5⟩
        (constServe ⟨200, .obj []⟩) = .ok ⟨[]⟩
    ∧ RaysurferClient.patterns ⟨"k", "u", 30⟩ ⟨"t", "", 1, 5⟩
        (constServe ⟨200, .int 3⟩) =
          .error (.validation "PatternsResponse: Input should be an object")
    ∧ RaysurferClient.few_shot_examples ⟨"k", "u", 30⟩ ⟨"t", 3⟩
        (constServe ⟨404, .null⟩) = .error (.transport 404 .null)
    ∧ RaysurferClient.few_shot_examples ⟨"k", "u", 30⟩ ⟨"t", 3⟩
        (constServe ⟨200, .obj []⟩) = .ok ⟨[]⟩
    ∧ RaysurferClient.few_shot_examples ⟨"k", "u", 30⟩ ⟨"t", 3⟩
        (constServe ⟨200, .int 3⟩) =
          .error (.validation "FewShotResponse: Input should be an object") :=
  ⟨((c3_operations_error_kinds ⟨"k", "u", 30⟩ ⟨404, .null⟩ ⟨"t", 5, 0, true⟩
      ⟨"t", ⟨"a.py", "x"⟩, true, true⟩ ⟨"abc123", false, "", "", ""⟩
      ⟨"t", "", 1, 5⟩ ⟨"t", 3⟩).1 rfl).1,
   ((c3_operations_error_kinds ⟨"k", "u", 30⟩ ⟨200, .obj []⟩ ⟨"t", 5, 0, true⟩
      ⟨"t", ⟨"a.py", "x"⟩, true, true⟩ ⟨"abc123", false, "", "", ""⟩
      ⟨"t", "", 1, 5⟩ ⟨"t", 3⟩).2.1 rfl).1 _ rfl,
   ((c3_operations_error_kinds ⟨"k", "u", 30⟩ ⟨200, .int 3⟩ ⟨"t", 5, 0, true⟩
      ⟨"t", ⟨"a.py", "x"⟩, true, true⟩ ⟨"abc123", false, "", "", ""⟩
      ⟨"t", "", 1, 5⟩ ⟨"t", 3⟩).2.1 rfl).2.1 _ rfl,
   ((c3_operations_error_kinds ⟨"k", "u", 30⟩ ⟨404, .null⟩ ⟨"t", 5, 0, true⟩
      ⟨"t", ⟨"a.py", "x"⟩, true, true⟩ ⟨"abc123", false, "", "", ""⟩
      ⟨"t", "", 1, 5⟩ ⟨"t", 3⟩).1 rfl).2.1,
   ((c3_operations_error_kinds ⟨"k", "u", 30⟩ ⟨200, .obj []⟩ ⟨"t", 5, 0, true⟩
      ⟨"t", ⟨"a.py", "x"⟩, true, true⟩ ⟨"abc123", false, "", "", ""⟩
      ⟨"t", "", 1, 5⟩ ⟨"t", 3⟩).2.1 rfl).2.2.1 _ rfl,
   ((c3_operations_error_kinds ⟨"k", "u", 30⟩ ⟨200, .int 3⟩ ⟨"t", 5, 0, true⟩
      ⟨"t", ⟨"a.py", "x"⟩, true, true⟩ ⟨"abc123", false, "", "", ""⟩
      ⟨"t", "", 1, 5⟩ ⟨"t", 3⟩).2.1 rfl).2.2.2.1 _ rfl,
   ((c3_operations_error_kinds ⟨"k", "u", 30⟩ ⟨404, .null⟩ ⟨"t", 5, 0, true⟩
      ⟨"t", ⟨"a.py", "x"⟩, true, true⟩ ⟨"abc123", false, "", "", ""⟩
      ⟨"t", "", 1, 5⟩ ⟨"t", 3⟩).1 rfl).2.2.1,
   ((c3_operations_error_kinds ⟨"k", "u", 30⟩ ⟨200, .obj []⟩ ⟨"t", 5, 0, true⟩
      ⟨"t", ⟨"a.py", "x"⟩, true, true⟩ ⟨"abc123", false, "", "", ""⟩
      ⟨"t", "", 1, 5⟩ ⟨"t", 3⟩).2.1 rfl).2.2.2.2.1 _ rfl,
   ((c3_operations_error_kinds ⟨"k", "u", 30⟩ ⟨200, .int 3⟩ ⟨"t", 5, 0, true⟩
      ⟨"t", ⟨"a.py", "x"⟩, true, true⟩ ⟨"abc123", false, "", "", ""⟩
      ⟨"t", "", 1, 5⟩ ⟨"t", 3⟩).2.1 rfl).2.2.2.2.2.1 _ rfl,
   ((c3_operations_error_kinds ⟨"k", "u", 30⟩ ⟨404, .null⟩ ⟨"t", 5, 0, true⟩
      ⟨"t", ⟨"a.py", "x"⟩, true, true⟩ ⟨"abc123", false, "", "", ""⟩
      ⟨"t", "", 1, 5⟩ ⟨"t", 3⟩).1 rfl).2.2.2.1,
   ((c3_operations_error_kinds ⟨"k", "u", 30⟩ ⟨200, .obj []⟩ ⟨"t", 5, 0, true⟩
      ⟨"t", ⟨"a.py", "x"⟩, true, true⟩ ⟨"abc123", false, "", "", ""⟩
      ⟨"t", "", 1, 5⟩ ⟨"t", 3⟩).2.1 rfl).2.2.2.2.2.2.1 _ rfl,
   ((c3_operations_error_kinds ⟨"k", "u", 30⟩ ⟨200, .int 3⟩ ⟨"t", 5, 0, true⟩
      ⟨"t", ⟨"a.py", "x"⟩, true, true⟩ ⟨"abc123", false, "", "", ""⟩
      ⟨"t", "", 1, 5⟩ ⟨"t", 3⟩).2.1 rfl).2.2.2.2.2.2.2.1 _ rfl,
   ((c3_operations_error_kinds ⟨"k", "u", 30⟩ ⟨404, .null⟩ ⟨"t", 5, 0, true⟩
      ⟨"t", ⟨"a.py", "x"⟩, true, true⟩ ⟨"abc123", false, "", "", ""⟩
      ⟨"t", "", 1, 5⟩ ⟨"t", 3⟩).1 rfl).2.2.2.2,
   ((c3_operations_error_kinds ⟨"k", "u", 30⟩ ⟨200, .obj []⟩ ⟨"t", 5, 0, true⟩
      ⟨"t", ⟨"a.py", "x"⟩, true, true⟩ ⟨"abc123", false, "", "", ""⟩
      ⟨"t", "", 1, 5⟩ ⟨"t", 3⟩).2.1 rfl).2.2.2.2.2.2.2.2.1 _ rfl,
   ((c3_operations_error_kinds ⟨"k", "u", 30⟩ ⟨200, .int 3⟩ ⟨"t", 5, 0, true⟩
      ⟨"t", ⟨"a.py", "x"⟩, true, true⟩ ⟨"abc123", false, "", "", ""⟩
      ⟨"t", "", 1, 5⟩ ⟨"t", 3⟩).2.1 rfl).2.2.2.2.2.2.2.2.2 _ rfl⟩

/-- C4: for every response type, a JSON object whose declared fields, where
present, are well-typed parses successfully no matter which subset of the
optional fields is absent, and every absent field takes its documented
default — in particular an omitted thumbs_up parses to 0 and an omitted tags
parses to the empty list, and no absent `CodeBlock` field fails parsing. -/
theorem c4_missing_optional_fields_default :
    (∀ o, codeBlockFieldsOK o → ∃ cb, CodeBlock.parse (.obj o) = .ok cb
      ∧ (getField o "id" = none → cb.id = "")
      ∧ (getField o "name" = none → cb.name = "")
      ∧ (getField o "description" = none → cb.description = "")
      ∧ (getField o "source" = none → cb.source = "")
      ∧ (getField o "entrypoint" = none → cb.entrypoint = "")
      ∧ (getField o "language" = none → cb.language = "")
      ∧ (getField o "dependencies" = none → cb.dependencies = [])
      ∧ (getField o "tags" = none → cb.tags = []))
    ∧ (∀ o, searchMatchFieldsOK o → ∃ m, SearchMatch.parse (.obj o) = .ok m
      ∧ (getField o "code_block" = none → m.code_block = none)
      ∧ (getField o "combined_score" = none → m.combined_score = 0)
      ∧ (getField o "vector_score" = none → m.vector_score = 0)
      ∧ (getField o "verdict_score" = none → m.verdict_score = 0)
      ∧ (getField o "thumbs_up" = none → m.thumbs_up = 0)
      ∧ (getField o "thumbs_down" = none → m.thumbs_down = 0)
      ∧ (getField o "filename" = none → m.filename = "")
      ∧ (getField o "language" = none → m.language = "")
      ∧ (getField o "entrypoint" = none → m.entrypoint = "")
      ∧ (getField o "dependencies" = none → m.dependencies = []))
    ∧ (∀ o, searchResponseFieldsOK o →
      ∃ r, SearchResponse.parse (.obj o) = .ok r
      ∧ (getField o "matches" = none → r.«matches» = [])
      ∧ (getField o "total_found" = none → r.total_found = 0)
      ∧ (getField o "cache_hit" = none → r.cache_hit = false)
      ∧ (getField o "search_namespaces" = none → r.search_namespaces = []))
    ∧ (∀ o, uploadResponseFieldsOK o →
      ∃ r, UploadResponse.parse (.obj o) = .ok r
      ∧ (getField o "success" = none → r.success = false)
      ∧ (getField o "code_block_ids" = none → r.code_block_ids = [])
      ∧ (getField o "message" = none → r.message = ""))
    ∧ (∀ o, voteResponseFieldsOK o → ∃ r, VoteResponse.parse (.obj o) = .ok r
      ∧ (getField o "success" = none → r.success = false)
      ∧ (getField o "message" = none → r.message = ""))
    ∧ (∀ o, patternEntryFieldsOK o → ∃ p, PatternEntry.parse (.obj o) = .ok p
      ∧ (getField o "code_block" = none → p.code_block = none)
      ∧ (getField o "thumbs_up" = none → p.thumbs_up = 0)
      ∧ (getField o "thumbs_down" = none → p.thumbs_down = 0)
      ∧ (getField o "combined_score" = none → p.combined_score = 0))
    ∧ (∀ o, patternsResponseFieldsOK o →
      ∃ r, PatternsResponse.parse (.obj o) = .ok r
      ∧ (getField o "patterns" = none → r.patterns = []))
    ∧ (∀ o, fewShotExampleFieldsOK o →
      ∃ ex, FewShotExample.parse (.obj o) = .ok ex
      ∧ (getField o "task" = none → ex.task = "")
      ∧ (getField o "code" = none → ex.code = ""))
    ∧ (∀ o, fewShotResponseFieldsOK o →
      ∃ r, FewShotResponse.parse (.obj o) = .ok r
      ∧ (getField o "examples" = none → r.examples = [])) :=
  ⟨codeBlock_parse_ok, searchMatch_parse_ok, searchResponse_parse_ok,
   uploadResponse_parse_ok, voteResponse_parse_ok, patternEntry_parse_ok,
   patternsResponse_parse_ok, fewShotExample_parse_ok, fewShotResponse_parse_ok⟩

/-- Witness for C4: the empty JSON object (every optional field absent) for
each response type. -/
theorem c4_missing_optional_fields_default_witness :
    (codeBlockFieldsOK [] ∧ ∃ cb, CodeBlock.parse (.obj []) = .ok cb
      ∧ (getField ([] : List (String × JVal)) "id" = none → cb.id = "")
      ∧ (getField ([] : List (String × JVal)) "name" = none → cb.name = "")
      ∧ (getField ([] : List (String × JVal)) "description" = none → cb.description = "")
      ∧ (getField ([] : List (String × JVal)) "source" = none → cb.source = "")
      ∧ (getField ([] : List (String × JVal)) "entrypoint" = none → cb.entrypoint = "")
      ∧ (getField ([] : List (String × JVal)) "language" = none → cb.language = "")
      ∧ (getField ([] : List (String × JVal)) "dependencies" = none → cb.dependencies = [])
      ∧ (getField ([] : List (String × JVal)) "tags" = none → cb.tags = []))
    ∧ (searchMatchFieldsOK [] ∧ ∃ m, SearchMatch.parse (.obj []) = .ok m
      ∧ (getField ([] : List (String × JVal)) "code_block" = none → m.code_block = none)
      ∧ (getField ([] : List (String × JVal)) "combined_score" = none → m.combined_score = 0)
      ∧ (getField ([] : List (String × JVal)) "vector_score" = none → m.vector_score = 0)
      ∧ (getField ([] : List (String × JVal)) "verdict_score" = none → m.verdict_score = 0)
      ∧ (getField ([] : List (String × JVal)) "thumbs_up" = none → m.thumbs_up = 0)
      ∧ (getField ([] : List (String × JVal)) "thumbs_down" = none → m.thumbs_down = 0)
      ∧ (getField ([] : List (String × JVal)) "filename" = none → m.filename = "")
      ∧ (getField ([] : List (String × JVal)) "language" = none → m.language = "")
      ∧ (getField ([] : List (String × JVal)) "entrypoint" = none → m.entrypoint = "")
      ∧ (getField ([] : List (String × JVal)) "dependencies" = none → m.dependencies = []))
    ∧ (searchResponseFieldsOK [] ∧ ∃ r, SearchResponse.parse (.obj []) = .ok r
      ∧ (getField ([] : List (String × JVal)) "matches" = none → r.«matches» = [])
      ∧ (getField ([] : List (String × JVal)) "total_found" = none → r.total_found = 0)
      ∧ (getField ([] : List (String × JVal)) "cache_hit" = none → r.cache_hit = false)
      ∧ (getField ([] : List (String × JVal)) "search_namespaces" = none → r.search_namespaces = []))
    ∧ (uploadResponseFieldsOK [] ∧ ∃ r, UploadResponse.parse (.obj []) = .ok r
      ∧ (getField ([] : List (String × JVal)) "success" = none → r.success = false)
      ∧ (getField ([] : List (String × JVal)) "code_block_ids" = none → r.code_block_ids = [])
      ∧ (getField ([] : List (String × JVal)) "message" = none → r.message = ""))
    ∧ (voteResponseFieldsOK [] ∧ ∃ r, VoteResponse.parse (.obj []) = .ok r
      ∧ (getField ([] : List (String × JVal)) "success" = none → r.success = false)
      ∧ (getField ([] : List (String × JVal)) "message" = none → r.message = ""))
    ∧ (patternEntryFieldsOK [] ∧ ∃ p, PatternEntry.parse (.obj []) = .ok p
      ∧ (getField ([] : List (String × JVal)) "code_block" = none → p.code_block = none)
      ∧ (getField ([] : List (String × JVal)) "thumbs_up" = none → p.thumbs_up = 0)
      ∧ (getField ([] : List (String × JVal)) "thumbs_down" = none → p.thumbs_down = 0)
      ∧ (getField ([] : List (String × JVal)) "combined_score" = none → p.combined_score = 0))
    ∧ (patternsResponseFieldsOK [] ∧ ∃ r, PatternsResponse.parse (.obj []) = .ok r
      ∧ (getField ([] : List (String × JVal)) "patterns" = none → r.patterns = []))
    ∧ (fewShotExampleFieldsOK [] ∧ ∃ ex, FewShotExample.parse (.obj []) = .ok ex
      ∧ (getField ([] : List (String × JVal)) "task" = none → ex.task = "")
      ∧ (getField ([] : List (String × JVal)) "code" = none → ex.code = ""))
    ∧ (fewShotResponseFieldsOK [] ∧ ∃ r, FewShotResponse.parse (.obj []) = .ok r
      ∧ (getField ([] : List (String × JVal)) "examples" = none → r.examples = [])) :=
  ⟨⟨by simp [codeBlockFieldsOK, strFieldOK, strListFieldOK, getField],
    c4_missing_optional_fields_default.1 []
      (by simp [codeBlockFieldsOK, strFieldOK, strListFieldOK, getField])⟩,
   ⟨by simp [searchMatchFieldsOK, optCBFieldOK, floatFieldOK, intFieldOK,
      strFieldOK, strListFieldOK, getField],
    c4_missing_optional_fields_default.2.1 []
      (by simp [searchMatchFieldsOK, optCBFieldOK, floatFieldOK, intFieldOK,
        strFieldOK, strListFieldOK, getField])⟩,
   ⟨by simp [searchResponseFieldsOK, matchListFieldOK, intFieldOK, boolFieldOK,
      strListFieldOK, getField],
    c4_missing_optional_fields_default.2.2.1 []
      (by simp [searchResponseFieldsOK, matchListFieldOK, intFieldOK,
        boolFieldOK, strListFieldOK, getField])⟩,
   ⟨by simp [uploadResponseFieldsOK, boolFieldOK, strListFieldOK, strFieldOK,
      getField],
    c4_missing_optional_fields_default.2.2.2.1 []
      (by simp [uploadResponseFieldsOK, boolFieldOK, strListFieldOK,
        strFieldOK, getField])⟩,
   ⟨by simp [voteResponseFieldsOK, boolFieldOK, strFieldOK, getField],
    c4_missing_optional_fields_default.2.2.2.2.1 []
      (by simp [voteResponseFieldsOK, boolFieldOK, strFieldOK, getField])⟩,
   ⟨by simp [patternEntryFieldsOK, optCBFieldOK, intFieldOK, floatFieldOK,
      getField],
    c4_missing_optional_fields_default.2.2.2.2.2.1 []
      (by simp [patternEntryFieldsOK, optCBFieldOK, intFieldOK, floatFieldOK,
        getField])⟩,
   ⟨by simp [patternsResponseFieldsOK, patternListFieldOK, getField],
    c4_missing_optional_fields_default.2.2.2.2.2.2.1 []
      (by simp [patternsResponseFieldsOK, patternListFieldOK, getField])⟩,
   ⟨by simp [fewShotExampleFieldsOK, strFieldOK, getField],
    c4_missing_optional_fields_default.2.2.2.2.2.2.2.1 []
      (by simp [fewShotExampleFieldsOK, strFieldOK, getField])⟩,
   ⟨by simp [fewShotResponseFieldsOK, exampleListFieldOK, getField],
    c4_missing_optional_fields_default.2.2.2.2.2.2.2.2 []
      (by simp [fewShotResponseFieldsOK, exampleListFieldOK, getField])⟩⟩

/-- C5: for the tolerant types (`PatternEntry`, `PatternsResponse`,
`FewShotExample`, `FewShotResponse`), adding any set of entries whose keys
are not among the declared field names leaves parsing successful and every
declared field unchanged — extra keys are never misrouted into a declared
field. -/
theorem c5_tolerant_types_ignore_extra_keys :
    (∀ o e r, (∀ kv ∈ e, kv.1 ∉ patternEntryKeys) →
      PatternEntry.parse (.obj o) = .ok r →
      PatternEntry.parse (.obj (o ++ e)) = .ok r)
    ∧ (∀ o e r, (∀ kv ∈ e, kv.1 ∉ patternsResponseKeys) →
      PatternsResponse.parse (.obj o) = .ok r →
      PatternsResponse.parse (.obj (o ++ e)) = .ok r)
    ∧ (∀ o e r, (∀ kv ∈ e, kv.1 ∉ fewShotExampleKeys) →
      FewShotExample.parse (.obj o) = .ok r →
      FewShotExample.parse (.obj (o ++ e)) = .ok r)
    ∧ (∀ o e r, (∀ kv ∈ e, kv.1 ∉ fewShotResponseKeys) →
      FewShotResponse.parse (.obj o) = .ok r →
      FewShotResponse.parse (.obj (o ++ e)) = .ok r) := by
  refine ⟨?_, ?_, ?_, ?_⟩
  · intro o e r hk hp
    rw [patternEntry_parse_append o e hk, hp]
  · intro o e r hk hp
    rw [patternsResponse_parse_append o e hk, hp]
  · intro o e r hk hp
    rw [fewShotExample_parse_append o e hk, hp]
  · intro o e r hk hp
    rw [fewShotResponse_parse_append o e hk, hp]

/-- Witness for C5: one undocumented extra key added to a concrete object of
each tolerant type. -/
theorem c5_tolerant_types_ignore_extra_keys_witness :
    PatternEntry.parse (.obj ([("thumbs_up", .int 3)] ++
        [("extra_key", .str "x")])) = .ok ⟨none, 3, 0, 0⟩
    ∧ PatternsResponse.parse (.obj (([] : List (String × JVal)) ++
        [("server_added", .bool true)])) = .ok ⟨[]⟩
    ∧ FewShotExample.parse (.obj ([("task", .str "t")] ++
        [("extra_key", .null)])) = .ok ⟨"t", ""⟩
    ∧ FewShotResponse.parse (.obj (([] : List (String × JVal)) ++
        [("server_added", .int 1)])) = .ok ⟨[]⟩ :=
  ⟨c5_tolerant_types_ignore_extra_keys.1 [("thumbs_up", .int 3)]
      [("extra_key", .str "x")] ⟨none, 3, 0, 0⟩
      (by simp [patternEntryKeys]) rfl,
   c5_tolerant_types_ignore_extra_keys.2.1 [] [("server_added", .bool true)]
      ⟨[]⟩ (by simp [patternsResponseKeys]) rfl,
   c5_tolerant_types_ignore_extra_keys.2.2.1 [("task", .str "t")]
      [("extra_key", .null)] ⟨"t", ""⟩ (by simp [fewShotExampleKeys]) rfl,
   c5_tolerant_types_ignore_extra_keys.2.2.2 [] [("server_added", .int 1)]
      ⟨[]⟩ (by simp [fewShotResponseKeys]) rfl⟩

/-- C7: response parsing is idempotent on well-formed payloads: whenever a
payload parses to a value, serializing that value with `model_dump` and
parsing the result again yields the same value, for every documented response
type. -/
theorem c7_parse_dump_roundtrip :
    (∀ j r, SearchResponse.parse j = .ok r →
      SearchResponse.parse (SearchResponse.dump r) = .ok r)
    ∧ (∀ j r, UploadResponse.parse j = .ok r →
      UploadResponse.parse (UploadResponse.dump r) = .ok r)
    ∧ (∀ j r, VoteResponse.parse j = .ok r →
      VoteResponse.parse (VoteResponse.dump r) = .ok r)
    ∧ (∀ j r, PatternsResponse.parse j = .ok r →
      PatternsResponse.parse (PatternsResponse.dump r) = .ok r)
    ∧ (∀ j r, FewShotResponse.parse j = .ok r →
      FewShotResponse.parse (FewShotResponse.dump r) = .ok r)
    ∧ (∀ j r, CodeBlock.parse j = .ok r →
      CodeBlock.parse (CodeBlock.dump r) = .ok r)
    ∧ (∀ j r, SearchMatch.parse j = .ok r →
      SearchMatch.parse (SearchMatch.dump r) = .ok r)
    ∧ (∀ j r, PatternEntry.parse j = .ok r →
      PatternEntry.parse (PatternEntry.dump r) = .ok r)
    ∧ (∀ j r, FewShotExample.parse j = .ok r →
      FewShotExample.parse (FewShotExample.dump r) = .ok r) :=
  ⟨fun _ r _ => searchResponse_parse_dump r,
   fun _ r _ => uploadResponse_parse_dump r,
   fun _ r _ => voteResponse_parse_dump r,
   fun _ r _ => patternsResponse_parse_dump r,
   fun _ r _ => fewShotResponse_parse_dump r,
   fun _ r _ => codeBlock_parse_dump r,
   fun _ r _ => searchMatch_parse_dump r,
   fun _ r _ => patternEntry_parse_dump r,
   fun _ r _ => fewShotExample_parse_dump r⟩

/-- Witness for C7: the empty JSON object payload for each response type. -/
theorem c7_parse_dump_roundtrip_witness :
    SearchResponse.parse (SearchResponse.dump ⟨[], 0, false, []⟩) =
      .ok ⟨[], 0, false, []⟩
    ∧ UploadResponse.parse (UploadResponse.dump ⟨false, [], ""⟩) =
      .ok ⟨false, [], ""⟩
    ∧ VoteResponse.parse (VoteResponse.dump ⟨false, ""⟩) = .ok ⟨false, ""⟩
    ∧ PatternsResponse.parse (PatternsResponse.dump ⟨[]⟩) = .ok ⟨[]⟩
    ∧ FewShotResponse.parse (FewShotResponse.dump ⟨[]⟩) = .ok ⟨[]⟩
    ∧ CodeBlock.parse (CodeBlock.dump ⟨"", "", "", "", "", "", [], []⟩) =
      .ok ⟨"", "", "", "", "", "", [], []⟩
    ∧ SearchMatch.parse (SearchMatch.dump
        ⟨none, 0, 0, 0, 0, 0, "", "", "", []⟩) =
      .ok ⟨none, 0, 0, 0, 0, 0, "", "", "", []⟩
    ∧ PatternEntry.parse (PatternEntry.dump ⟨none, 0, 0, 0⟩) =
      .ok ⟨none, 0, 0, 0⟩
    ∧ FewShotExample.parse (FewShotExample.dump ⟨"", ""⟩) = .ok ⟨"", ""⟩ :=
  ⟨c7_parse_dump_roundtrip.1 (.obj []) _ rfl,
   c7_parse_dump_roundtrip.2.1 (.obj []) _ rfl,
   c7_parse_dump_roundtrip.2.2.1 (.obj []) _ rfl,
   c7_parse_dump_roundtrip.2.2.2.1 (.obj []) _ rfl,
   c7_parse_dump_roundtrip.2.2.2.2.1 (.obj []) _ rfl,
   c7_parse_dump_roundtrip.2.2.2.2.2.1 (.obj []) _ rfl,
   c7_parse_dump_roundtrip.2.2.2.2.2.2.1 (.obj []) _ rfl,
   c7_parse_dump_roundtrip.2.2.2.2.2.2.2.1 (.obj []) _ rfl,
   c7_parse_dump_roundtrip.2.2.2.2.2.2.2.2 (.obj []) _ rfl⟩
